import Mathlib

/-!
Verification development for the TemanEDU matching and scoring engine
(`logic.py`).  The engine is a pure function surface: rule-gate evaluation,
multi-factor fit scoring, readiness scoring, recovery/action planning and
university-program matching, composed by `evaluate_rules`.

Modelling conventions:
* Python `int` is `ℤ`; Python `float` / `Decimal` is an exact rational `ℚ`
  (the engine's arithmetic is small sums, divisions and comparisons, so no
  claim here depends on binary floating-point rounding).
* Python `round` (banker's rounding, half to even) is `pyRoundInt` /
  `pyRound2`; `int(·)` applied to a float (truncation toward zero) is
  `pyTrunc`.
* optional / possibly-missing dict entries and nullable columns are
  `Option`; Python truthiness of numbers (`if budget_min:`) is an explicit
  `≠ 0` test on the unwrapped value.
* Python sets of normalised tags are `Finset String`; `list.sort(...,
  reverse=True)` (a stable descending sort) is the stable insertion sort
  `sortDesc`.
* the single time dependence, `datetime.utcnow()` inside
  `_best_intake_delta`, is made explicit: every function downstream of it
  takes a `PyDateTime` value `now` and reads only its `month` field.
* number-to-text formatting (`f"{x:.2f}"`, `f"{n:,}"`) is reproduced by
  computable formatters; their exact digit strings are deterministic
  functions of the numbers, which is all any claim needs.
-/

namespace TemanEdu

/-- Python `round(q)`: round half to even, returning an integer. -/
def pyRoundInt (q : ℚ) : ℤ :=
  let f : ℤ := ⌊q⌋
  let r : ℚ := q - f
  if r < 1/2 then f
  else if 1/2 < r then f + 1
  else if f % 2 = 0 then f else f + 1

/-- Python `round(q, 2)`: round half to even at two decimal places. -/
def pyRound2 (q : ℚ) : ℚ := (pyRoundInt (q * 100) : ℚ) / 100

/-- Python `int(q)` on a float: truncation toward zero. -/
def pyTrunc (q : ℚ) : ℤ := if 0 ≤ q then ⌊q⌋ else ⌈q⌉

/-- `GRADE_SCALE` lookup table (logic.py lines 9-20). -/
def GRADE_SCALE : List (String × ℤ) :=
  [("G", 0), ("E", 1), ("D", 2), ("C", 3), ("C+", 4),
   ("B", 5), ("B+", 6), ("A-", 7), ("A", 8), ("A+", 9)]

/-- `ENGLISH_LEVELS` lookup table (logic.py line 22). -/
def ENGLISH_LEVELS : List (String × ℤ) :=
  [("Beginner", 0), ("Intermediate", 1), ("Advanced", 2)]

/-- `MONTH_TO_NUM` lookup table (logic.py lines 23-36). -/
def MONTH_TO_NUM : List (String × ℤ) :=
  [("january", 1), ("february", 2), ("march", 3), ("april", 4),
   ("may", 5), ("june", 6), ("july", 7), ("august", 8),
   ("september", 9), ("october", 10), ("november", 11), ("december", 12)]

/-- Python `dict.get(k, default)` on an association list. -/
def dictGetD (l : List (String × ℤ)) (k : String) (d : ℤ) : ℤ :=
  match l.lookup k with
  | some v => v
  | none => d

/-- Python `dict.get(k)` on an association list. -/
def dictGet? (l : List (String × ℤ)) (k : String) : Option ℤ := l.lookup k

/-- Python whitespace for `str.strip()`. -/
def isPySpace (c : Char) : Bool :=
  c = ' ' ∨ c = '\t' ∨ c = '\n' ∨ c = '\r' ∨ c = '\x0b' ∨ c = '\x0c'

/-- `str.strip()`: drop leading and trailing whitespace.  (Implemented
character-structurally rather than with `String.trim` so that concrete
evaluations reduce.) -/
def strTrim (s : String) : String :=
  String.mk (((s.data.dropWhile isPySpace).reverse.dropWhile isPySpace).reverse)

/-- `str.lower()` (ASCII case mapping, which covers the engine's tag and
grade vocabulary). -/
def strLower (s : String) : String := String.mk (s.data.map Char.toLower)

/-- `str.upper()` (ASCII case mapping). -/
def strUpper (s : String) : String := String.mk (s.data.map Char.toUpper)

/-- `_norm_set` (logic.py lines 61-62): strip, drop empties, lowercase,
collect into a set. -/
def normSet (values : List String) : Finset String :=
  ((values.filter (fun v => strTrim v ≠ "")).map (fun v => strLower (strTrim v))).toFinset

/-- Two-decimal rendering of a rational, modelling Python `f"{x:.2f}"`
(which also rounds half to even). -/
def format2 (q : ℚ) : String :=
  let n := pyRoundInt (q * 100)
  let a := n.natAbs
  (if n < 0 then "-" else "") ++ toString (a / 100) ++ "." ++
    (if a % 100 < 10 then "0" else "") ++ toString (a % 100)

/-- One-decimal rendering of a rational, modelling Python `f"{x:.1f}"`. -/
def format1 (q : ℚ) : String :=
  let n := pyRoundInt (q * 10)
  let a := n.natAbs
  (if n < 0 then "-" else "") ++ toString (a / 10) ++ "." ++ toString (a % 10)

/-- Digit grouping for Python `f"{n:,}"`: insert a comma every three
digits, counted from the right.  `groupDigits` walks the digit characters
of the absolute value (most significant first). -/
def groupDigits (ds : List Char) : List Char :=
  match ds with
  | [] => []
  | c :: rest =>
    if rest.length % 3 = 0 ∧ rest.length ≠ 0 then c :: ',' :: groupDigits rest
    else c :: groupDigits rest

/-- Python `f"{n:,}"` for an integer. -/
def formatComma (n : ℤ) : String :=
  (if n < 0 then "-" else "") ++ String.mk (groupDigits (toString n.natAbs).data)

/-- `grade_meets_requirement` (logic.py lines 79-80). -/
def grade_meets_requirement (student_grade required_grade : String) : Bool :=
  dictGetD GRADE_SCALE (strUpper student_grade) (-1) ≥ dictGetD GRADE_SCALE (strUpper required_grade) 99

/-- `english_meets_requirement` (logic.py lines 83-84). -/
def english_meets_requirement (student_level required_level : String) : Bool :=
  dictGetD ENGLISH_LEVELS student_level (-1) ≥ dictGetD ENGLISH_LEVELS required_level 99

/-- `constraints_json` mapping of a rule (keys read by `score_constraints`). -/
structure ConstraintsJson where
  work_part_time_ok : Option Bool := none
  timeline_fast_track : Option Bool := none
deriving Repr, DecidableEq

/-- A rule record (the fields `logic.py` reads through `_field`).  Field
types follow the `rules` table in models.py: `Integer` columns are `ℤ`,
`Numeric` is `ℚ`, nullable columns are `Option`. -/
structure Rule where
  rule_id : String := ""
  active : Bool := true
  student_level : Option String := none
  interest_tags : List String := []
  destination_tags : List String := []
  min_spm_credits : Option ℤ := none
  required_subjects_json : List (String × String) := []
  min_cgpa : Option ℚ := none
  budget_min : Option ℤ := none
  budget_max : Option ℤ := none
  english_min : Option String := none
  constraints_json : Option ConstraintsJson := none
  pathway_title : String := ""
  pathway_summary : String := ""
  cost_estimate_text : String := ""
  visa_note : String := ""
  scholarship_likelihood : Option String := none
  readiness_gaps : List String := []
  next_steps : String := ""
  priority_weight : ℤ := 0
deriving Repr, DecidableEq

/-- The student profile mapping.  Entries that the engine reads with
`.get` and may be absent are `Option`; flags read through `bool(...)`
with a `False` default are plain `Bool`. -/
structure StudentInput where
  student_level : Option String := none
  spm_credits : Option ℤ := none
  subjects : List (String × String) := []
  cgpa : Option ℚ := none
  budget_monthly : Option ℤ := none
  english_self : Option String := none
  english_test_score : Option ℚ := none
  destination_preference : Option String := none
  destination_tags : List String := []
  willing_relocate : Option Bool := none
  interest_tags : List String := []
  scholarship_needed : Bool := false
  need_work_part_time : Bool := false
  timeline_urgency : Option String := none
  family_constraints : Option String := none
  preparedness_checklist : List String := []
  intake_window : Option String := none
  specific_program_interest : Option String := none
  ielts_score : Option ℚ := none
  toefl_score : Option ℤ := none
deriving Repr, DecidableEq

/-- `int(student_input.get("spm_credits") or 0)`. -/
def StudentInput.credits (s : StudentInput) : ℤ := s.spm_credits.getD 0

/-- `int(student_input.get("budget_monthly") or 0)`. -/
def StudentInput.budget (s : StudentInput) : ℤ := s.budget_monthly.getD 0

/-- `_to_float(student_input.get("cgpa"), 0.0)`. -/
def StudentInput.cgpaVal (s : StudentInput) : ℚ := s.cgpa.getD 0

/-- `student_input.get("english_self", "Beginner")`. -/
def StudentInput.english (s : StudentInput) : String := s.english_self.getD "Beginner"

/-- Lowercased-key lookup over the student's `subjects` dict
(`{k.lower(): v for k, v in ....items()}` followed by `.get`); a Python
dict comprehension keeps the value of the last colliding key. -/
def subjectsGet (subjects : List (String × String)) (key : String) : Option String :=
  ((subjects.map (fun kv => (strLower kv.1, kv.2))).reverse.find? (fun kv => kv.1 = key)).map
    (fun kv => kv.2)

/-- Result quadruple of `evaluate_rule_gate`. -/
structure GateResult where
  passed : Bool
  matched : List String
  borderline : List String
  missing : List String
deriving Repr, DecidableEq

/-- The SPM required-subjects loop inside `evaluate_rule_gate`
(logic.py lines 114-127): threads the `matched`/`borderline` accumulators
and exits early with the single failure message. -/
def gateSubjects (subjects : List (String × String)) (lookup : String → Option String)
    (matched borderline : List String) :
    Except (List String × List String × String) (List String × List String) :=
  match subjects with
  | [] => Except.ok (matched, borderline)
  | (subject, needed_grade) :: rest =>
    match lookup (strLower subject) with
    | none => Except.error (matched, borderline, "Missing subject grade for " ++ subject)
    | some student_grade =>
      if student_grade = "" then
        Except.error (matched, borderline, "Missing subject grade for " ++ subject)
      else if ¬ grade_meets_requirement student_grade needed_grade then
        Except.error (matched, borderline, subject ++ " below " ++ needed_grade)
      else if strUpper student_grade = strUpper needed_grade then
        gateSubjects rest lookup matched (borderline ++ [subject ++ " at threshold " ++ needed_grade])
      else
        gateSubjects rest lookup (matched ++ [subject ++ " requirement"]) borderline

/-- `evaluate_rule_gate` (logic.py lines 87-186).  Sequential hard checks;
each failure appends its single reason to `missing` and returns
immediately. -/
def evaluate_rule_gate (rule : Rule) (s : StudentInput) : GateResult :=
  if ¬ rule.active then ⟨false, [], [], ["Rule inactive"]⟩
  else if rule.student_level ≠ s.student_level then
    ⟨false, [], [], ["Student level mismatch"]⟩
  else
    let matched0 : List String := ["Student level"]
    -- SPM credits check (lines 102-112)
    let spmCredits :
        Except (List String × List String × String) (List String × List String) :=
      if s.student_level = some "SPM" then
        match rule.min_spm_credits with
        | some min_credits =>
          let credits := s.credits
          if credits < min_credits then
            Except.error (matched0, [], "SPM credits " ++ toString credits ++ " < " ++ toString min_credits)
          else if credits = min_credits then
            Except.ok (matched0, ["SPM credits at threshold"])
          else
            Except.ok (matched0 ++ ["SPM credits"], [])
        | none => Except.ok (matched0, [])
      else Except.ok (matched0, [])
    match spmCredits with
    | Except.error (m, b, msg) => ⟨false, m, b, [msg]⟩
    | Except.ok (m1, b1) =>
      -- SPM required subjects loop (lines 114-127)
      let spmSubjects :=
        if s.student_level = some "SPM" then
          gateSubjects rule.required_subjects_json (subjectsGet s.subjects) m1 b1
        else Except.ok (m1, b1)
      match spmSubjects with
      | Except.error (m, b, msg) => ⟨false, m, b, [msg]⟩
      | Except.ok (m2, b2) =>
        -- Diploma CGPA check (lines 129-140)
        let diploma :
            Except (List String × List String × String) (List String × List String) :=
          if s.student_level = some "Diploma" then
            match rule.min_cgpa with
            | some min_cgpa =>
              let cgpa := s.cgpaVal
              if cgpa < min_cgpa then
                Except.error (m2, b2, "CGPA " ++ format2 cgpa ++ " < " ++ format2 min_cgpa)
              else if |cgpa - min_cgpa| < 1/20 then
                Except.ok (m2, b2 ++ ["CGPA at threshold"])
              else
                Except.ok (m2 ++ ["CGPA requirement"], b2)
            | none => Except.ok (m2, b2)
          else Except.ok (m2, b2)
        match diploma with
        | Except.error (m, b, msg) => ⟨false, m, b, [msg]⟩
        | Except.ok (m3, b3) =>
          -- budget check (lines 142-152); `if budget_min:` is Python truthiness
          let budget :
              Except (List String × List String × String) (List String × List String) :=
            match rule.budget_min with
            | some budget_min =>
              if budget_min ≠ 0 then
                if s.budget < budget_min then
                  if (s.budget : ℚ) ≥ (budget_min : ℚ) * (4/5) then
                    Except.ok (m3, b3 ++ ["Budget slightly below pathway minimum"])
                  else
                    Except.error (m3, b3, "Budget below pathway minimum")
                else Except.ok (m3 ++ ["Budget minimum"], b3)
              else Except.ok (m3, b3)
            | none => Except.ok (m3, b3)
          match budget with
          | Except.error (m, b, msg) => ⟨false, m, b, [msg]⟩
          | Except.ok (m4, b4) =>
            -- English check (lines 154-167); `if required_english:` truthiness
            let english :
                Except (List String × List String × String) (List String × List String) :=
              match rule.english_min with
              | some required_english =>
                if required_english ≠ "" then
                  let student_level_int := dictGetD ENGLISH_LEVELS s.english 0
                  let required_level_int := dictGetD ENGLISH_LEVELS required_english 2
                  if student_level_int < required_level_int - 1 then
                    Except.error (m4, b4, "English level significantly below requirement")
                  else if student_level_int < required_level_int then
                    Except.ok (m4, b4 ++ ["English one level below requirement"])
                  else if student_level_int = required_level_int then
                    Except.ok (m4, b4 ++ ["English at threshold"])
                  else
                    Except.ok (m4 ++ ["English readiness"], b4)
                else Except.ok (m4, b4)
              | none => Except.ok (m4, b4)
            match english with
            | Except.error (m, b, msg) => ⟨false, m, b, [msg]⟩
            | Except.ok (m5, b5) =>
              -- destination and relocation checks (lines 169-184)
              let destinations :=
                normSet (if rule.destination_tags = [] then ["malaysia"] else rule.destination_tags)
              let preference := s.destination_preference.getD "malaysia_only"
              let selected :=
                normSet (if s.destination_tags = [] then ["malaysia"] else s.destination_tags)
              if preference = "malaysia_only" ∧ "malaysia" ∉ destinations then
                ⟨false, m5, b5, ["Overseas-only pathway while student chose Malaysia only"]⟩
              else
                let mb6 :=
                  if preference = "open_overseas" ∧ selected ≠ ∅ then
                    if destinations ≠ ∅ ∧ (destinations ∩ selected) = ∅ ∧ "malaysia" ∉ destinations then
                      (m5, b5 ++ ["Destination preference not directly matched"])
                    else (m5 ++ ["Destination preference"], b5)
                  else (m5, b5)
                if ¬ (s.willing_relocate.getD true) ∧ "malaysia" ∉ destinations then
                  ⟨false, mb6.1, mb6.2, ["Relocation not preferred"]⟩
                else
                  ⟨true, mb6.1, mb6.2, []⟩

/-- `ScoreDetail` (logic.py lines 39-44). -/
structure ScoreDetail where
  score : ℚ
  matched : List String
  borderline : List String
  missing : List String
deriving Repr, DecidableEq

/-- Ascending sorted listing of a tag set, for Python `sorted(set)`. -/
def sortedTags (ts : Finset String) : List String :=
  ts.sort (· ≤ ·)

/-- `score_interest` (logic.py lines 189-201). -/
def score_interest (rule : Rule) (s : StudentInput) : ScoreDetail :=
  let rule_tags := normSet rule.interest_tags
  let student_tags := normSet s.interest_tags
  if rule_tags = ∅ then ⟨15, ["Flexible interest tags"], [], []⟩
  else
    let overlap := rule_tags ∩ student_tags
    let ratio : ℚ := (overlap.card : ℚ) / (rule_tags.card : ℚ)
    let score := 30 * ratio
    let matched :=
      if overlap ≠ ∅ then ["Interest match: " ++ String.intercalate ", " (sortedTags overlap)]
      else []
    let missing_tags := sortedTags (rule_tags \ student_tags)
    let borderline := if 0 < ratio ∧ ratio < 1 then ["Partial interest overlap"] else []
    let missing :=
      if missing_tags ≠ [] then ["Interest tags missing: " ++ String.intercalate ", " missing_tags]
      else []
    ⟨score, matched, borderline, missing⟩

/-- The per-subject satisfaction loop of `score_academic`
(logic.py lines 225-231): counts satisfied subjects and collects the
"strengthen needed" messages in order. -/
def academicSubjects (required : List (String × String)) (lookup : String → Option String) :
    ℕ × List String :=
  match required with
  | [] => (0, [])
  | (subject, needed) :: rest =>
    let (satisfied, missing) := academicSubjects rest lookup
    match lookup (strLower subject) with
    | some got =>
      if got ≠ "" ∧ grade_meets_requirement got needed then (satisfied + 1, missing)
      else (satisfied, ("Subject strengthen needed: " ++ subject) :: missing)
    | none => (satisfied, ("Subject strengthen needed: " ++ subject) :: missing)

/-- The SPM credit-ratio contribution of `score_academic`
(lines 212-216): `min(15.0, min(1.2, credits / min_credits) * 12.5)` when
`min_spm_credits` is truthy, else 0. -/
def academicCreditScore (rule : Rule) (s : StudentInput) : ℚ :=
  match rule.min_spm_credits with
  | some min_credits =>
    if min_credits ≠ 0 then
      min 15 (min (6/5) ((s.credits : ℚ) / (min_credits : ℚ)) * (25/2))
    else 0
  | none => 0

/-- The per-subject contribution of `score_academic` (lines 222-232):
`10 * satisfied / max(1, len(required_subjects))` when the mapping is
nonempty, else 0. -/
def academicSubjectScore (rule : Rule) (s : StudentInput) : ℚ :=
  if rule.required_subjects_json ≠ [] then
    10 * (((academicSubjects rule.required_subjects_json (subjectsGet s.subjects)).1 : ℚ) /
      ((max 1 rule.required_subjects_json.length : ℕ) : ℚ))
  else 0

/-- The Diploma contribution of `score_academic` (lines 236-250):
`min(25.0, min(1.25, cgpa/min_cgpa if min_cgpa > 0 else 1) * 20)` when
`min_cgpa` is truthy, else the flat 18. -/
def academicDiplomaScore (rule : Rule) (s : StudentInput) : ℚ :=
  match rule.min_cgpa with
  | some min_cgpa =>
    if min_cgpa ≠ 0 then
      min 25 (min (5/4) (if min_cgpa > 0 then s.cgpaVal / min_cgpa else 1) * 20)
    else 18
  | none => 18

/-- `score_academic` (logic.py lines 204-252): the numeric parts are the
named contributions above; the final score is `min(score, 25.0)` as in
the single `return`. -/
def score_academic (rule : Rule) (s : StudentInput) : ScoreDetail :=
  if s.student_level = some "SPM" then
    let credits := s.credits
    -- credit-comparison fragments (lines 217-220)
    let creditLists : List String × List String :=
      match rule.min_spm_credits with
      | some min_credits =>
        if min_credits ≠ 0 then
          if credits > min_credits then (["Credits above baseline"], [])
          else if credits = min_credits then ([], ["Credits at baseline"])
          else ([], [])
        else ([], [])
      | none => ([], [])
    -- required-subject fragments (lines 222-234)
    let subj := academicSubjects rule.required_subjects_json (subjectsGet s.subjects)
    let subjectMatched : List String :=
      if rule.required_subjects_json ≠ [] ∧ subj.1 = rule.required_subjects_json.length then
        ["All key subjects met"]
      else []
    let subjectMissing : List String :=
      if rule.required_subjects_json ≠ [] then subj.2 else []
    ⟨min (academicCreditScore rule s + academicSubjectScore rule s) 25,
     creditLists.1 ++ subjectMatched, creditLists.2, subjectMissing⟩
  else if s.student_level = some "Diploma" then
    -- Diploma CGPA path (lines 236-250); `if min_cgpa:` is truthiness
    let lists : List String × List String × List String :=
      match rule.min_cgpa with
      | some min_cgpa =>
        if min_cgpa ≠ 0 then
          if s.cgpaVal > min_cgpa + 1/10 then (["CGPA above baseline"], [], [])
          else if s.cgpaVal ≥ min_cgpa then ([], ["CGPA near baseline"], [])
          else ([], [], ["CGPA below desired range"])
        else ([], [], [])
      | none => ([], [], [])
    ⟨min (academicDiplomaScore rule s) 25, lists.1, lists.2.1, lists.2.2⟩
  else ⟨min 0 25, [], [], []⟩

/-- `score_budget` (logic.py lines 255-276).  `budget_min and ...` /
`budget_max and ...` use Python truthiness of the optional ints. -/
def score_budget (rule : Rule) (s : StudentInput) : ScoreDetail :=
  let budget_monthly := s.budget
  let minT : Bool := match rule.budget_min with | some v => v ≠ 0 | none => false
  let maxT : Bool := match rule.budget_max with | some v => v ≠ 0 | none => false
  if ¬ minT ∧ ¬ maxT then ⟨15, ["Budget flexible"], [], []⟩
  else if minT ∧ budget_monthly < (rule.budget_min.getD 0) then
    let gap_ratio : ℚ := (budget_monthly : ℚ) / ((rule.budget_min.getD 0 : ℤ) : ℚ)
    if gap_ratio ≥ 17/20 then
      ⟨10, [], ["Budget slightly tight"], ["Consider scholarship or part-time support"]⟩
    else ⟨2, [], [], ["Budget significantly below pathway cost"]⟩
  else if maxT ∧ budget_monthly > (rule.budget_max.getD 0) then
    ⟨14, ["Budget exceeds expected cost range"], [], []⟩
  else ⟨20, ["Budget aligned with pathway"], [], []⟩

/-- `score_english` (logic.py lines 279-301). -/
def score_english (rule : Rule) (s : StudentInput) : ScoreDetail :=
  let required := rule.english_min
  let actual := s.english
  let test_score := s.english_test_score
  let requiredT : Bool := match required with | some v => v ≠ "" | none => false
  if ¬ requiredT then
    let base : ℚ := 10
    let base := match test_score with
      | some t => if t ≥ 75 then base + 3 else base
      | none => base
    ⟨base, ["No strict English minimum"], [], []⟩
  else
    let req := dictGetD ENGLISH_LEVELS (required.getD "") 2
    let got := dictGetD ENGLISH_LEVELS actual 0
    if got ≥ req then
      let bonus : ℚ := match test_score with
        | some t => if t ≥ 75 then 3 else 0
        | none => 0
      let label := if got > req then "English above minimum" else "English meets minimum"
      ⟨min 15 (12 + bonus), [label], [], []⟩
    else if got = req - 1 then
      ⟨7, [], ["English one level below requirement"], ["Strengthen English proficiency"]⟩
    else ⟨2, [], [], ["English below pathway baseline"]⟩

/-- `constraints_json.get(key, default)` with the `or {}` fallback. -/
def Rule.constraintGet (rule : Rule) (f : ConstraintsJson → Option Bool) (d : Bool) : Bool :=
  match rule.constraints_json with
  | some c => (f c).getD d
  | none => d

/-- `score_constraints` (logic.py lines 304-343). -/
def score_constraints (rule : Rule) (s : StudentInput) : ScoreDetail :=
  let score0 : ℚ := 10
  -- scholarship-likelihood band (lines 312-322); `or "Medium"` truthiness
  let band := (match rule.scholarship_likelihood with
    | some v => if v = "" then "Medium" else v
    | none => "Medium")
  let band := strLower band
  let part1 : ℚ × List String × List String × List String :=
    if s.scholarship_needed then
      if band = "high" then (0, ["Scholarship-friendly pathway"], [], [])
      else if band = "medium" then (-(5/2), [], ["Scholarship possible but competitive"], [])
      else (-5, [], [], ["Low scholarship likelihood"])
    else (0, [], [], [])
  -- part-time compatibility (lines 324-330)
  let allows := rule.constraintGet (fun c => c.work_part_time_ok) true
  let part2 : ℚ × List String × List String × List String :=
    if s.need_work_part_time ∧ ¬ allows then
      (-4, [], [], ["Part-time work not recommended for this pathway"])
    else if s.need_work_part_time ∧ allows then (0, ["Part-time compatible"], [], [])
    else (0, [], [], [])
  -- urgency (lines 332-337)
  let urgency := s.timeline_urgency.getD "normal"
  let fastTrack := rule.constraintGet (fun c => c.timeline_fast_track) false
  let part3 : ℚ × List String × List String × List String :=
    if urgency = "urgent" ∧ fastTrack then (0, ["Fast-track timeline fit"], [], [])
    else if urgency = "urgent" then (-(3/2), [], ["Timeline may require bridging steps"], [])
    else (0, [], [], [])
  -- family constraints (lines 339-341)
  let part4 : ℚ × List String × List String × List String :=
    if s.family_constraints.getD "none" ≠ "none" then
      (-1, [], ["Family constraints require planning"], [])
    else (0, [], [], [])
  let score := score0 + part1.1 + part2.1 + part3.1 + part4.1
  ⟨max score 0,
   part1.2.1 ++ part2.2.1 ++ part3.2.1 ++ part4.2.1,
   part1.2.2.1 ++ part2.2.2.1 ++ part3.2.2.1 ++ part4.2.2.1,
   part1.2.2.2 ++ part2.2.2.2 ++ part3.2.2.2 ++ part4.2.2.2⟩

/-- The five component scores of a fit evaluation (rounded to 2 dp). -/
structure ComponentScores where
  interest : ℚ
  academic : ℚ
  budget : ℚ
  english : ℚ
  constraints : ℚ
deriving Repr, DecidableEq

/-- The explanation block of a fit evaluation. -/
structure Explanation where
  matched_conditions : List String
  borderline_conditions : List String
  missing_conditions : List String
  ranking_reason : String
deriving Repr, DecidableEq

/-- Result of `compute_fit_score`. -/
structure FitScore where
  fit_score : ℚ
  component_scores : ComponentScores
  explanation : Explanation
deriving Repr, DecidableEq

/-- `compute_fit_score` (logic.py lines 346-383). -/
def compute_fit_score (rule : Rule) (s : StudentInput) : FitScore :=
  let interest := score_interest rule s
  let academic := score_academic rule s
  let budget := score_budget rule s
  let english := score_english rule s
  let constraints := score_constraints rule s
  let fit_score :=
    pyRound2 (interest.score + academic.score + budget.score + english.score + constraints.score)
  let ranking_reason :=
    "Priority " ++ toString rule.priority_weight ++ "; " ++
    "interest " ++ format1 interest.score ++ ", academic " ++ format1 academic.score ++ ", " ++
    "budget " ++ format1 budget.score ++ ", english " ++ format1 english.score ++
    ", constraints " ++ format1 constraints.score ++ "."
  { fit_score := fit_score
    component_scores :=
      ⟨pyRound2 interest.score, pyRound2 academic.score, pyRound2 budget.score,
       pyRound2 english.score, pyRound2 constraints.score⟩
    explanation :=
      ⟨interest.matched ++ academic.matched ++ budget.matched ++ english.matched ++ constraints.matched,
       interest.borderline ++ academic.borderline ++ budget.borderline ++ english.borderline ++ constraints.borderline,
       interest.missing ++ academic.missing ++ budget.missing ++ english.missing ++ constraints.missing,
       ranking_reason⟩ }

/-- Academic dimension of `compute_readiness_score`
(logic.py lines 387-394). -/
def readinessAcademic (s : StudentInput) : ℚ :=
  if s.student_level = some "SPM" then min 40 (((s.credits : ℚ) / 8) * 40)
  else if s.student_level = some "Diploma" then min 40 ((s.cgpaVal / 4) * 40)
  else 0

/-- English dimension of `compute_readiness_score`
(logic.py lines 396-403). -/
def readinessEnglish (s : StudentInput) : ℚ :=
  let english_level := dictGetD ENGLISH_LEVELS s.english 0
  let base : ℚ :=
    if english_level = 0 then 10 else if english_level = 1 then 18
    else if english_level = 2 then 25 else 10
  match s.english_test_score with
  | some t => if t ≥ 75 then min 25 (base + 3) else if t < 50 then base - 2 else base
  | none => base

/-- Budget dimension of `compute_readiness_score` (logic.py line 405-406). -/
def readinessBudget (s : StudentInput) : ℚ :=
  if s.budget ≥ 1500 then 20 else if s.budget ≥ 800 then 12 else 6

/-- Preparedness dimension of `compute_readiness_score`
(logic.py lines 408-409). -/
def readinessChecklist (s : StudentInput) : ℚ :=
  min 15 (((s.preparedness_checklist.length : ℚ) / 5) * 15)

/-- Result of `compute_readiness_score`. -/
structure Readiness where
  readiness_score : ℤ
  academic : ℚ
  english : ℚ
  budget : ℚ
  preparedness : ℚ
deriving Repr, DecidableEq

/-- `compute_readiness_score` (logic.py lines 386-421): the total is the
half-to-even-rounded, clamped-to-100 sum of the four dimensions; the
breakdown reports each dimension rounded to 2 dp. -/
def compute_readiness_score (s : StudentInput) : Readiness :=
  let academic_score := readinessAcademic s
  let english_score := readinessEnglish s
  let budget_score := readinessBudget s
  let checklist_score := readinessChecklist s
  { readiness_score :=
      pyRoundInt (min 100 (academic_score + english_score + budget_score + checklist_score))
    academic := pyRound2 academic_score
    english := pyRound2 english_score
    budget := pyRound2 budget_score
    preparedness := pyRound2 checklist_score }

/-- Character-list prefix test (used for Python substring containment). -/
def charsPrefix : List Char → List Char → Bool
  | [], _ => true
  | _ :: _, [] => false
  | a :: as, b :: bs => a = b && charsPrefix as bs

/-- Occurrence test on character lists. -/
def charsContains (needle : List Char) : List Char → Bool
  | [] => charsPrefix needle []
  | c :: rest => charsPrefix needle (c :: rest) || charsContains needle rest

/-- Python `needle in hay` on strings: substring containment. -/
def strContains (hay needle : String) : Bool := charsContains needle.data hay.data

/-- Result of `build_action_plan`. -/
structure ActionPlan where
  seven_day_actions : List String
  thirty_day_plan : List String
deriving Repr, DecidableEq

/-- `build_action_plan` (logic.py lines 424-450). -/
def build_action_plan (s : StudentInput) (missing_items : List String) : ActionPlan :=
  let seven_day :=
    ["Shortlist two realistic pathways and discuss with a counselor/mentor.",
     "Collect latest academic transcript and supporting documents.",
     "Draft a simple CV and personal statement outline."]
  let thirty_day :=
    ["Follow a weekly English improvement routine (speaking + writing).",
     "Build one portfolio artifact relevant to your target field.",
     "Contact at least 3 institutions for entry and cost clarification.",
     "Track scholarship deadlines and required documents."]
  let seven_day :=
    if missing_items.any (fun item => strContains item "English") then
      seven_day ++ ["Take a free English placement test and set a target score."]
    else seven_day
  let thirty_day :=
    if s.scholarship_needed then
      thirty_day ++ ["Prepare scholarship narrative and referee contact list."]
    else thirty_day
  let thirty_day :=
    if s.need_work_part_time then
      thirty_day ++ ["Map study schedule with legal and institution work limits."]
    else thirty_day
  ⟨seven_day.take 5, thirty_day.take 6⟩

/-- One alternative local pathway inside a recovery plan. -/
structure AltPathway where
  pathway_title : String
  pathway_summary : String
  cost_estimate_text : String
deriving Repr, DecidableEq

/-- Result of `build_recovery_plan`. -/
structure RecoveryPlan where
  blocked_inputs : List String
  unlock_steps : List String
  alternative_local_pathways : List AltPathway
deriving Repr, DecidableEq

/-- `build_recovery_plan` (logic.py lines 453-477).  `blocked_inputs` is
`sorted(set(rejection_reasons))[:6]`; `unlock_steps` is a fixed
five-element list. -/
def build_recovery_plan (_s : StudentInput) (rejection_reasons : List String)
    (fallback_rules : List Rule) : RecoveryPlan :=
  { blocked_inputs := (rejection_reasons.toFinset.sort (· ≤ ·)).take 6
    unlock_steps :=
      ["Improve the weakest academic prerequisite for your target pathway.",
       "Increase budget flexibility via scholarships, grants, or part-time planning.",
       "Strengthen English readiness with measurable weekly targets.",
       "Prioritize local pathways first, then reassess overseas options.",
       "Review constraints with a counselor to widen feasible options."]
    alternative_local_pathways :=
      (fallback_rules.take 3).map (fun rule =>
        ⟨rule.pathway_title, rule.pathway_summary, rule.cost_estimate_text⟩) }

/-- An explicit stand-in for Python's `datetime.utcnow()` value.  Only
`month` is ever read (by `_best_intake_delta`). -/
structure PyDateTime where
  year : ℤ := 2025
  month : ℤ := 1
  day : ℤ := 1
  hour : ℤ := 0
  minute : ℤ := 0
deriving Repr, DecidableEq

/-- `_best_intake_delta` (logic.py lines 480-491): minimum wrap-around
month delta from `now.month` to any recognised intake month
(`MONTH_TO_NUM` has no zero values, so `if not month_num` is exactly the
missing-key case). -/
def best_intake_delta (intake_terms : List String) (now : PyDateTime) : Option ℤ :=
  let deltas := intake_terms.filterMap (fun term =>
    match dictGet? MONTH_TO_NUM (strLower (strTrim term)) with
    | some month_num => some ((month_num - now.month) % 12)
    | none => none)
  match deltas with
  | [] => none
  | d :: rest => some (rest.foldl min d)

/-- `_intake_window_fit` (logic.py lines 494-509). -/
def intake_window_fit (intake_window : String) (intake_terms : List String)
    (now : PyDateTime) : ℚ × String :=
  match best_intake_delta intake_terms now with
  | none => (6, "Intake timing available on request")
  | some delta =>
    if intake_window = "next_3_months" then
      if delta ≤ 3 then (15, "Intake aligns with your 0-3 month timeline")
      else (4, "Intake may be later than your preferred immediate timeline")
    else if intake_window = "next_6_12_months" then
      if 4 ≤ delta ∧ delta ≤ 12 then (15, "Intake fits your 6-12 month planning window")
      else (10, "Intake available earlier than planned")
    else if intake_window = "flexible_local" then
      (12, "Timeline is flexible with local-first focus")
    else (10, "Intake timing is generally compatible")

/-- The admission-requirements mapping of a program (keys read by
`_score_university_option`). -/
structure AdmissionReq where
  min_spm_credits : Option ℤ := none
  min_cgpa : Option ℚ := none
  english_min_level : Option String := none
  ielts_min : Option ℚ := none
  toefl_min : Option ℤ := none
deriving Repr, DecidableEq

/-- A university-program record (fields read through `_field`); types
follow the `university_programs` table in models.py. -/
structure UniversityProgram where
  program_code : String := ""
  active : Bool := true
  university_name : String := ""
  country : Option String := none
  program_name : String := ""
  program_level : Option String := none
  field_tags : List String := []
  intake_terms : List String := []
  application_deadline_text : Option String := none
  admission_requirements_json : AdmissionReq := {}
  tuition_yearly_min_myr : Option ℤ := none
  tuition_yearly_max_myr : Option ℤ := none
  ielts_min : Option ℚ := none
  toefl_min : Option ℤ := none
  qs_overall_rank : Option ℤ := none
  mohe_listed : Bool := false
  ptptn_eligible : Bool := false
  source_codes : List String := []
  source_urls_json : List (String × String) := []
  application_url : Option String := none
  contact_email : Option String := none
deriving Repr, DecidableEq

/-- The option dictionary built for one scored program. -/
structure UniOption where
  program_code : String := ""
  university_name : String := ""
  program_name : String := ""
  program_level : String := ""
  country : String := ""
  intake_terms : List String := []
  application_deadline_text : Option String := none
  application_url : Option String := none
  contact_email : Option String := none
  ptptn_eligible : Bool := false
  mohe_listed : Bool := false
  qs_overall_rank : Option ℤ := none
  tuition_yearly_text : String := ""
  match_score : ℚ := 0
  fit_reasons : List String := []
  cautions : List String := []
  source_trace : List (String × String) := []
deriving Repr, DecidableEq

/-- `str(_field(program, "country", "Malaysia") or "Malaysia")`
(logic.py line 523). -/
def programCountry (program : UniversityProgram) : String :=
  match program.country with
  | some c => if c = "" then "Malaysia" else c
  | none => "Malaysia"

/-- `student_input.get("destination_preference", "malaysia_only")`
(line 524). -/
def destinationPref (s : StudentInput) : String :=
  s.destination_preference.getD "malaysia_only"

/-- `_norm_set(student_input.get("destination_tags") or ["Malaysia"])`
(line 525). -/
def selectedDestinations (s : StudentInput) : Finset String :=
  normSet (if s.destination_tags = [] then ["Malaysia"] else s.destination_tags)

/-- `str(req.get("english_min_level") or "Intermediate")` (line 570). -/
def programRequiredEnglish (program : UniversityProgram) : String :=
  match program.admission_requirements_json.english_min_level with
  | some v => if v = "" then "Intermediate" else v
  | none => "Intermediate"

/-- `_score_university_option` (logic.py lines 512-653).  Hard filters
return `none`; otherwise the additive score is capped at 100 and rounded
to 2 dp. -/
def score_university_option (program : UniversityProgram) (s : StudentInput)
    (pathway_tags : Finset String) (now : PyDateTime) : Option UniOption :=
  if ¬ program.active then none
  else
  let program_level := program.program_level.getD ""
  if s.student_level = some "SPM" ∧ ¬ (program_level = "Foundation" ∨ program_level = "Diploma") then none
  else if s.student_level = some "Diploma" ∧ ¬ (program_level = "Bachelor" ∨ program_level = "Top-up") then none
  else
  let country := programCountry program
  let preference := destinationPref s
  let selected := selectedDestinations s
  if preference = "malaysia_only" ∧ strLower country ≠ "malaysia" then none
  else if preference = "open_overseas" ∧ selected ≠ ∅ ∧ strLower country ∉ selected ∧ strLower country ≠ "malaysia" then none
  else
  -- tag overlap (lines 535-549)
  let program_tags := normSet program.field_tags
  let specific := strLower (strTrim (s.specific_program_interest.getD ""))
  let student_interest0 := normSet s.interest_tags
  let student_interest1 :=
    if specific ≠ "" ∧ specific ≠ "general" then insert specific student_interest0
    else student_interest0
  let student_interest :=
    if pathway_tags ≠ ∅ then student_interest1 ∪ pathway_tags else student_interest1
  let overlap := program_tags ∩ student_interest
  let part1 : ℚ × List String × List String :=
    if overlap ≠ ∅ then
      (min 30 (12 + (overlap.card : ℚ) * 7),
       ["Program fit: " ++ String.intercalate ", " (sortedTags overlap)], [])
    else (6, [], ["Program specialization may not fully match stated interests"])
  -- academic floor and margin bonus (lines 551-567)
  let req := program.admission_requirements_json
  let requiredCredits := req.min_spm_credits.getD 0
  let requiredCgpa := req.min_cgpa.getD 0
  if s.student_level = some "SPM" ∧ requiredCredits ≠ 0 ∧ s.credits < requiredCredits then none
  else if s.student_level = some "Diploma" ∧ requiredCgpa ≠ 0 ∧ s.cgpaVal < requiredCgpa then none
  else
  let part2 : ℚ × List String :=
    if s.student_level = some "SPM" then
      if requiredCredits ≠ 0 then
        ((if s.credits ≥ requiredCredits + 1 then 18 else 14),
         ["SPM credits meet baseline (" ++ toString s.credits ++ "/" ++ toString requiredCredits ++ "+)"])
      else (0, [])
    else if s.student_level = some "Diploma" then
      if requiredCgpa ≠ 0 then
        ((if s.cgpaVal ≥ requiredCgpa + 1/5 then 18 else 14),
         ["CGPA meets baseline (" ++ format2 s.cgpaVal ++ "/" ++ format2 requiredCgpa ++ "+)"])
      else (0, [])
    else (0, [])
  -- English level (lines 569-578)
  let english_self := s.english
  let required_english := programRequiredEnglish program
  if ¬ english_meets_requirement english_self required_english ∧
      dictGetD ENGLISH_LEVELS english_self 0 + 1 < dictGetD ENGLISH_LEVELS required_english 1 then none
  else
  let part3 : ℚ × List String × List String :=
    if english_meets_requirement english_self required_english then
      (10, ["English level matches entry expectation"], [])
    else (5, [], ["English readiness is close to threshold"])
  -- IELTS / TOEFL bonuses (lines 580-595); `or` chains use truthiness
  let ielts_min : ℚ := (match program.ielts_min with
    | some x => if x ≠ 0 then some x else req.ielts_min
    | none => req.ielts_min).getD 0
  let toefl_min : ℤ := (match program.toefl_min with
    | some x => if x ≠ 0 then some x else req.toefl_min
    | none => req.toefl_min).getD 0
  let ielts_score := s.ielts_score.getD 0
  let toefl_score := s.toefl_score.getD 0
  let part4 : ℚ × List String × List String :=
    if ielts_min > 0 then
      if ielts_score ≠ 0 ∧ ielts_score ≥ ielts_min then
        (6, ["IELTS aligns (" ++ format1 ielts_score ++ "/" ++ format1 ielts_min ++ ")"], [])
      else if ielts_score = 0 then
        (0, [], ["IELTS " ++ format1 ielts_min ++ " may be required"])
      else (0, [], [])
    else (0, [], [])
  let part5 : ℚ × List String × List String :=
    if toefl_min > 0 then
      if toefl_score ≠ 0 ∧ toefl_score ≥ toefl_min then
        (4, ["TOEFL aligns (" ++ toString toefl_score ++ "/" ++ toString toefl_min ++ ")"], [])
      else if toefl_score = 0 then
        (0, [], ["TOEFL " ++ toString toefl_min ++ " may be required"])
      else (0, [], [])
    else (0, [], [])
  -- tuition filter and fit (lines 597-611)
  let budget_yearly := s.budget * 12
  let tuitionMin := program.tuition_yearly_min_myr.getD 0
  let tuitionMax := program.tuition_yearly_max_myr.getD 0
  let tminT : Bool := match program.tuition_yearly_min_myr with | some v => v ≠ 0 | none => false
  let tmaxT : Bool := match program.tuition_yearly_max_myr with | some v => v ≠ 0 | none => false
  if tminT ∧ budget_yearly < tuitionMin ∧ budget_yearly < pyTrunc ((tuitionMin : ℚ) * (4/5)) then none
  else
  let part6 : ℚ × List String × List String :=
    if tminT then
      if budget_yearly ≥ tuitionMin then (15, ["Budget aligns with estimated tuition"], [])
      else (9, [], ["Budget slightly tight; scholarship/loan planning needed"])
    else if tmaxT then (10, [], [])
    else (0, [], [])
  -- intake window (lines 613-615) and PTPTN bonus (lines 617-620)
  let intake := intake_window_fit (s.intake_window.getD "") program.intake_terms now
  let part8 : ℚ × List String :=
    if s.scholarship_needed ∧ program.ptptn_eligible then
      (5, ["PTPTN-eligible indicator supports financing pathway"])
    else (0, [])
  let score := part1.1 + part2.1 + part3.1 + part4.1 + part5.1 + part6.1 + intake.1 + part8.1
  let match_score := pyRound2 (min 100 score)
  let tuition_text :=
    if tminT ∧ tmaxT then
      "RM " ++ formatComma tuitionMin ++ " - RM " ++ formatComma tuitionMax ++ " per year"
    else if tminT then "From RM " ++ formatComma tuitionMin ++ " per year"
    else if tmaxT then "Up to RM " ++ formatComma tuitionMax ++ " per year"
    else "Tuition on request"
  let reasons := part1.2.1 ++ part2.2 ++ part3.2.1 ++ part4.2.1 ++ part5.2.1 ++ part6.2.1 ++
    [intake.2] ++ part8.2
  let cautions := part1.2.2 ++ part3.2.2 ++ part4.2.2 ++ part5.2.2 ++ part6.2.2
  some
    { program_code := program.program_code
      university_name := program.university_name
      program_name := program.program_name
      program_level := program_level
      country := country
      intake_terms := program.intake_terms
      application_deadline_text := program.application_deadline_text
      application_url := program.application_url
      contact_email := program.contact_email
      ptptn_eligible := program.ptptn_eligible
      mohe_listed := program.mohe_listed
      qs_overall_rank := program.qs_overall_rank
      tuition_yearly_text := tuition_text
      match_score := match_score
      fit_reasons := reasons.take 5
      cautions := cautions.take 4
      source_trace := program.source_codes.map (fun code =>
        (code, (program.source_urls_json.lookup code).getD "")) }

/-- Stable insertion for descending sort: `x` goes before the first
element it is strictly greater than, hence after all equals — exactly the
stability of Python `list.sort(..., reverse=True)`. -/
def insGt {α : Type} (gt : α → α → Bool) (x : α) : List α → List α
  | [] => [x]
  | y :: ys => if gt x y then x :: y :: ys else y :: insGt gt x ys

/-- Stable descending sort by repeated insertion, processing the
original list left to right. -/
def sortGt {α : Type} (gt : α → α → Bool) (l : List α) : List α :=
  l.foldl (fun acc x => insGt gt x acc) []

/-- One recommendation dictionary built by `evaluate_rules` for an
eligible rule (lines 701-715); `readiness_score` and
`university_options` are filled in by later passes, mirroring the dict
mutations. -/
structure Recommendation where
  rule_id : String := ""
  pathway_title : String := ""
  pathway_summary : String := ""
  cost_estimate_text : String := ""
  visa_note : String := ""
  scholarship_likelihood : Option String := none
  readiness_gaps : List String := []
  next_steps : String := ""
  priority_weight : ℤ := 0
  rule_interest_tags : List String := []
  fit_score : ℚ := 0
  component_scores : ComponentScores := ⟨0, 0, 0, 0, 0⟩
  explanation : Explanation := ⟨[], [], [], ""⟩
  readiness_score : Option ℤ := none
  university_options : List UniOption := []
deriving Repr, DecidableEq

/-- Descending comparison on `(fit_score, priority_weight)` used by the
`eligible.sort(..., reverse=True)` call (line 717). -/
def recGt (a b : Recommendation) : Bool :=
  a.fit_score > b.fit_score ∨ (a.fit_score = b.fit_score ∧ a.priority_weight > b.priority_weight)

/-- Descending comparison on `match_score` used by the two
university-option sorts (lines 665 and 677). -/
def optGt (a b : UniOption) : Bool := a.match_score > b.match_score

/-- The dedup key `f"{university_name}::{program_name}"` (line 672). -/
def uniKey (item : UniOption) : String := item.university_name ++ "::" ++ item.program_name

/-- One step of the dedup dict (lines 672-675): Python dict assignment
keeps the key's original position and the code replaces the stored value
only on a strictly larger `match_score`. -/
def upsertPool (key : String) (item : UniOption) :
    List (String × UniOption) → List (String × UniOption)
  | [] => [(key, item)]
  | (k, v) :: rest =>
    if k = key then (k, if item.match_score > v.match_score then item else v) :: rest
    else (k, v) :: upsertPool key item rest

/-- The dedup dict of `build_university_matches` as an association list
in key-insertion order. -/
def dedupPool (items : List UniOption) : List (String × UniOption) :=
  items.foldl (fun acc item => upsertPool (uniKey item) item acc) []

/-- All programs scored against the profile for one recommendation's
pathway tags, sorted by descending `match_score` (lines 660-665). -/
def scoredOptions (s : StudentInput) (programs : List UniversityProgram)
    (pathway_tags : Finset String) (now : PyDateTime) : List UniOption :=
  sortGt optGt (programs.filterMap (fun program =>
    score_university_option program s pathway_tags now))

/-- The pooled aggregate of `build_university_matches` (line 668): the
top 2 of each recommendation's top 3. -/
def uniAggregate (recommendations : List Recommendation) (s : StudentInput)
    (programs : List UniversityProgram) (now : PyDateTime) : List UniOption :=
  recommendations.flatMap (fun rec =>
    ((scoredOptions s programs (normSet rec.rule_interest_tags) now).take 3).take 2)

/-- `build_university_matches` (logic.py lines 656-678).  The Python
function mutates each recommendation dict (setting `university_options`
to its top 3) and returns the deduplicated global top 8; here it returns
the updated recommendations together with that global list. -/
def build_university_matches (recommendations : List Recommendation) (s : StudentInput)
    (programs : List UniversityProgram) (now : PyDateTime) :
    List Recommendation × List UniOption :=
  (recommendations.map (fun rec =>
     { rec with university_options :=
         (scoredOptions s programs (normSet rec.rule_interest_tags) now).take 3 }),
   (sortGt optGt ((dedupPool (uniAggregate recommendations s programs now)).map (fun kv => kv.2))).take 8)

/-- The recommendation dictionary built for one passing rule
(lines 696-715): gate fragments are prepended to the scorer's own
fragments. -/
def buildRecommendation (rule : Rule) (s : StudentInput) (g : GateResult) : Recommendation :=
  let scored := compute_fit_score rule s
  { rule_id := rule.rule_id
    pathway_title := rule.pathway_title
    pathway_summary := rule.pathway_summary
    cost_estimate_text := rule.cost_estimate_text
    visa_note := rule.visa_note
    scholarship_likelihood := rule.scholarship_likelihood
    readiness_gaps := rule.readiness_gaps
    next_steps := rule.next_steps
    priority_weight := rule.priority_weight
    rule_interest_tags := rule.interest_tags
    fit_score := scored.fit_score
    component_scores := scored.component_scores
    explanation :=
      ⟨g.matched ++ scored.explanation.matched_conditions,
       g.borderline ++ scored.explanation.borderline_conditions,
       g.missing ++ scored.explanation.missing_conditions,
       scored.explanation.ranking_reason⟩ }

/-- The `eligible` list of `evaluate_rules` before sorting
(lines 687-715). -/
def buildEligible (rules : List Rule) (s : StudentInput) : List Recommendation :=
  rules.filterMap (fun rule =>
    let g := evaluate_rule_gate rule s
    if g.passed then some (buildRecommendation rule s g) else none)

/-- The `rejection_reasons` list of `evaluate_rules` (lines 688-694):
missing reasons of the rules that failed gating, in rule order. -/
def rejectionReasons (rules : List Rule) (s : StudentInput) : List String :=
  rules.flatMap (fun rule =>
    let g := evaluate_rule_gate rule s
    if g.passed then [] else g.missing)

/-- The result dictionary of `evaluate_rules`. -/
structure EvaluationResult where
  no_match : Bool
  readiness : Readiness
  recommendations : List Recommendation
  top_university_options : List UniOption
  recovery_plan : Option RecoveryPlan
  seven_day_actions : List String
  thirty_day_plan : List String
deriving Repr, DecidableEq

/-- `evaluate_rules` (logic.py lines 681-777).  `university_programs`
models the Python `list | None = None` parameter, with `[]` standing for
both `None` and the empty list (Python tests it only with truthiness
`if university_programs:`). -/
def evaluate_rules (rules : List Rule) (s : StudentInput) (top_n : ℤ)
    (university_programs : List UniversityProgram) (now : PyDateTime) : EvaluationResult :=
  let eligible := sortGt recGt (buildEligible rules s)
  let rejection_reasons := rejectionReasons rules s
  let readiness := compute_readiness_score s
  if eligible = [] then
    -- no-match branch (lines 721-741)
    let fallback_local := sortGt (fun a b => a.priority_weight > b.priority_weight)
      (rules.filter (fun r =>
        r.student_level = s.student_level ∧ "malaysia" ∈ normSet r.destination_tags))
    let recovery := build_recovery_plan s rejection_reasons fallback_local
    let action_plan := build_action_plan s rejection_reasons
    let top_universities :=
      if university_programs ≠ [] then
        ((build_university_matches [{ rule_interest_tags := s.interest_tags }] s
            university_programs now).2).take 5
      else []
    { no_match := true
      readiness := readiness
      recommendations := []
      top_university_options := top_universities
      recovery_plan := some recovery
      seven_day_actions := action_plan.seven_day_actions
      thirty_day_plan := action_plan.thirty_day_plan }
  else
    -- match branch (lines 743-777)
    let recommendations0 := eligible.take ((max 3 (min top_n (eligible.length : ℤ))).toNat)
    let aggregate_missing := recommendations0.flatMap (fun item => item.explanation.missing_conditions)
    let action_plan := build_action_plan s aggregate_missing
    let recommendations1 := recommendations0.map (fun item =>
      { item with readiness_score := some readiness.readiness_score })
    let matched :=
      if university_programs ≠ [] then
        build_university_matches recommendations1 s university_programs now
      else (recommendations1, [])
    let top_universities := matched.2
    let action_plan :=
      if university_programs ≠ [] ∧ top_universities ≠ [] then
        let uni_names := ((top_universities.take 3).map (fun item => item.university_name)).filter
          (fun n => n ≠ "")
        if uni_names ≠ [] then
          let shortlist := String.intercalate ", " uni_names
          ⟨["Shortlist these universities for action: " ++ shortlist ++ ".",
            "Open each official application page and record required documents.",
            "Email admissions teams to confirm latest intake and entry requirements."] ++
             action_plan.seven_day_actions.take 2,
           ["Complete a personal statement draft tailored to your top 3 programs.",
            "Prepare certified academic transcripts and English test evidence.",
            "Submit at least 2 applications before the earliest deadline shown."] ++
             action_plan.thirty_day_plan.take 3⟩
        else action_plan
      else action_plan
    { no_match := false
      readiness := readiness
      recommendations := matched.1
      top_university_options := top_universities
      recovery_plan := none
      seven_day_actions := action_plan.seven_day_actions
      thirty_day_plan := action_plan.thirty_day_plan }

/-! ### Concrete fixtures used by witnesses and counterexamples -/

/-- A minimal active SPM rule with no further requirements: it passes the
gate for any SPM, Malaysia-only, relocation-willing profile. -/
def ruleSimple : Rule := { student_level := some "SPM" }

/-- A minimal SPM profile (all other entries defaulted). -/
def sSimple : StudentInput := { student_level := some "SPM" }

/-- A Diploma-level profile, mismatching `ruleSimple`'s level. -/
def sDiploma : StudentInput := { student_level := some "Diploma" }

/-- An active Malaysian Foundation program whose only requirement is a
declared tuition minimum of RM 10,000/year. -/
def progTuition : UniversityProgram :=
  { program_level := some "Foundation", tuition_yearly_min_myr := some 10000 }

/-- SPM profile with RM 1,000 monthly budget (RM 12,000/year). -/
def sBudget1000 : StudentInput :=
  { student_level := some "SPM", budget_monthly := some 1000,
    english_self := some "Intermediate" }

/-- SPM profile with RM 500 monthly budget (RM 6,000/year). -/
def sBudget500 : StudentInput :=
  { student_level := some "SPM", budget_monthly := some 500,
    english_self := some "Intermediate" }

/-- An SPM rule whose stated `min_spm_credits` is the (schema-legal but
pathological) negative value -2. -/
def ruleNegMin : Rule := { student_level := some "SPM", min_spm_credits := some (-2) }

/-- A Diploma profile carrying a negative CGPA value. -/
def sNegCgpa : StudentInput := { student_level := some "Diploma", cgpa := some (-4) }

/-! ### Rounding lemmas -/

theorem pyRoundInt_cases (q : ℚ) :
    pyRoundInt q = ⌊q⌋ ∨ (pyRoundInt q = ⌊q⌋ + 1 ∧ 1/2 ≤ q - ⌊q⌋) := by
  unfold pyRoundInt
  dsimp only
  by_cases h1 : q - (⌊q⌋ : ℚ) < 1/2
  · left; rw [if_pos h1]
  · rw [if_neg h1]
    by_cases h2 : (1/2 : ℚ) < q - ⌊q⌋
    · right; rw [if_pos h2]; exact ⟨rfl, le_of_not_lt h1⟩
    · rw [if_neg h2]
      by_cases h3 : ⌊q⌋ % 2 = 0
      · left; rw [if_pos h3]
      · right; rw [if_neg h3]; exact ⟨rfl, le_of_not_lt h1⟩

theorem pyRoundInt_le {q : ℚ} {n : ℤ} (h : q ≤ (n : ℚ)) : pyRoundInt q ≤ n := by
  have hf : ⌊q⌋ ≤ n := by
    have h' := Int.floor_le_floor h
    simpa using h'
  rcases pyRoundInt_cases q with hc | ⟨hc, hr⟩
  · omega
  · have hfn : ⌊q⌋ < n := by
      by_contra hcon
      push_neg at hcon
      have h2 : (n : ℚ) ≤ (⌊q⌋ : ℚ) := by exact_mod_cast hcon
      have h3 : (⌊q⌋ : ℚ) ≤ q := Int.floor_le q
      linarith
    omega

theorem le_pyRoundInt {q : ℚ} {n : ℤ} (h : (n : ℚ) ≤ q) : n ≤ pyRoundInt q := by
  have hf : n ≤ ⌊q⌋ := Int.le_floor.mpr h
  rcases pyRoundInt_cases q with hc | ⟨hc, _⟩ <;> omega

theorem pyRound2_le_100 {q : ℚ} (h : q ≤ 100) : pyRound2 q ≤ 100 := by
  unfold pyRound2
  have h1 : q * 100 ≤ ((10000 : ℤ) : ℚ) := by push_cast; linarith
  have h2 : pyRoundInt (q * 100) ≤ 10000 := pyRoundInt_le h1
  rw [div_le_iff₀ (by norm_num : (0 : ℚ) < 100)]
  have : ((pyRoundInt (q * 100)) : ℚ) ≤ ((10000 : ℤ) : ℚ) := by exact_mod_cast h2
  push_cast at this ⊢
  linarith

/-! ### Lemmas about the stable descending insertion sort -/

theorem insGt_length {α : Type} (gt : α → α → Bool) (x : α) (l : List α) :
    (insGt gt x l).length = l.length + 1 := by
  induction l with
  | nil => simp [insGt]
  | cons y ys ih =>
    simp only [insGt]
    split
    · simp
    · simp [ih]

theorem insGt_perm {α : Type} (gt : α → α → Bool) (x : α) (l : List α) :
    (insGt gt x l).Perm (x :: l) := by
  induction l with
  | nil => simp [insGt]
  | cons y ys ih =>
    simp only [insGt]
    split
    · exact List.Perm.refl _
    · exact (List.Perm.cons y ih).trans (List.Perm.swap x y ys)

theorem foldl_insGt_perm {α : Type} (gt : α → α → Bool) :
    ∀ (l acc : List α), (l.foldl (fun acc x => insGt gt x acc) acc).Perm (l ++ acc) := by
  intro l
  induction l with
  | nil => intro acc; simp
  | cons x xs ih =>
    intro acc
    have h1 := ih (insGt gt x acc)
    have h2 : (xs ++ insGt gt x acc).Perm (xs ++ (x :: acc)) :=
      List.Perm.append_left xs (insGt_perm gt x acc)
    have h3 : (xs ++ x :: acc).Perm (x :: (xs ++ acc)) := List.perm_middle
    simpa using (h1.trans h2).trans h3

theorem sortGt_perm {α : Type} (gt : α → α → Bool) (l : List α) :
    (sortGt gt l).Perm l := by
  have h := foldl_insGt_perm gt l []
  simpa [sortGt] using h

theorem sortGt_length {α : Type} (gt : α → α → Bool) (l : List α) :
    (sortGt gt l).length = l.length :=
  (sortGt_perm gt l).length_eq

/-! ### Gate lemmas -/

theorem buildEligible_length (rules : List Rule) (s : StudentInput) :
    (buildEligible rules s).length =
      (rules.filter (fun r => (evaluate_rule_gate r s).passed)).length := by
  induction rules with
  | nil => rfl
  | cons r rs ih =>
    by_cases h : (evaluate_rule_gate r s).passed
    · simp [buildEligible, List.filterMap_cons, List.filter_cons, h] at ih ⊢
      omega
    · simp [buildEligible, List.filterMap_cons, List.filter_cons, h] at ih ⊢
      omega

/-- C10: `evaluate_rule_gate` passes exactly when `missing` is empty, and
`missing` never holds more than one reason. -/
theorem C10_gate_pass_iff_no_missing (rule : Rule) (s : StudentInput) :
    ((evaluate_rule_gate rule s).passed = true ↔ (evaluate_rule_gate rule s).missing = []) ∧
    (evaluate_rule_gate rule s).missing.length ≤ 1 := by
  unfold evaluate_rule_gate
  repeat' split <;> try simp

theorem C10_witness :
    ((evaluate_rule_gate ruleSimple sSimple).passed = true ↔
      (evaluate_rule_gate ruleSimple sSimple).missing = []) ∧
    (evaluate_rule_gate ruleSimple sSimple).missing.length ≤ 1 :=
  C10_gate_pass_iff_no_missing ruleSimple sSimple

/-- C5: an active rule whose `student_level` differs from the profile's
fails the gate with exactly `["Student level mismatch"]` and no other
accumulated fragments. -/
theorem C5_gate_level_short_circuit (rule : Rule) (s : StudentInput)
    (hactive : rule.active = true) (hlevel : rule.student_level ≠ s.student_level) :
    evaluate_rule_gate rule s =
      { passed := false, matched := [], borderline := [],
        missing := ["Student level mismatch"] } := by
  unfold evaluate_rule_gate
  simp [hactive, hlevel]

theorem C5_witness :
    evaluate_rule_gate ruleSimple sDiploma =
      { passed := false, matched := [], borderline := [],
        missing := ["Student level mismatch"] } :=
  C5_gate_level_short_circuit ruleSimple sDiploma rfl (by decide)

/-- C4: with an empty rules list, `evaluate_rules` reports `no_match`,
returns no recommendations, and supplies a recovery plan with at least 3
(actually exactly 5) unlock steps, for every profile. -/
theorem C4_empty_rules_recovery (s : StudentInput) (top_n : ℤ)
    (progs : List UniversityProgram) (now : PyDateTime) :
    (evaluate_rules [] s top_n progs now).no_match = true ∧
    (evaluate_rules [] s top_n progs now).recommendations = [] ∧
    3 ≤ (((evaluate_rules [] s top_n progs now).recovery_plan.map
      (fun p => p.unlock_steps.length)).getD 0) := by
  refine ⟨rfl, rfl, ?_⟩
  have h : (((evaluate_rules [] s top_n progs now).recovery_plan.map
      (fun p => p.unlock_steps.length)).getD 0) = 5 := rfl
  omega

theorem C4_witness :
    (evaluate_rules [] sSimple 5 [] {}).no_match = true ∧
    (evaluate_rules [] sSimple 5 [] {}).recommendations = [] ∧
    3 ≤ (((evaluate_rules [] sSimple 5 [] {}).recovery_plan.map
      (fun p => p.unlock_steps.length)).getD 0) :=
  C4_empty_rules_recovery sSimple 5 [] {}

/-! ### Sub-score bounds (each sub-scorer stays under its nominal cap) -/

theorem score_interest_le (rule : Rule) (s : StudentInput) :
    (score_interest rule s).score ≤ 30 := by
  unfold score_interest
  dsimp only
  split
  · norm_num
  · rename_i h
    have hpos : 0 < (normSet rule.interest_tags).card :=
      Finset.card_pos.mpr (Finset.nonempty_iff_ne_empty.mpr h)
    have hle : ((normSet rule.interest_tags ∩ normSet s.interest_tags).card : ℚ) ≤
        ((normSet rule.interest_tags).card : ℚ) := by
      exact_mod_cast Finset.card_le_card Finset.inter_subset_left
    have hposQ : (0 : ℚ) < ((normSet rule.interest_tags).card : ℚ) := by exact_mod_cast hpos
    have hratio : ((normSet rule.interest_tags ∩ normSet s.interest_tags).card : ℚ) /
        ((normSet rule.interest_tags).card : ℚ) ≤ 1 := by
      rw [div_le_one hposQ]; exact hle
    nlinarith

theorem score_academic_le (rule : Rule) (s : StudentInput) :
    (score_academic rule s).score ≤ 25 := by
  unfold score_academic
  repeat' split <;> simp

theorem score_budget_le (rule : Rule) (s : StudentInput) :
    (score_budget rule s).score ≤ 20 := by
  unfold score_budget
  repeat' split <;> norm_num

theorem score_english_le (rule : Rule) (s : StudentInput) :
    (score_english rule s).score ≤ 15 := by
  unfold score_english
  dsimp only
  repeat' split <;> norm_num [inf_le_left]

theorem score_constraints_le (rule : Rule) (s : StudentInput) :
    (score_constraints rule s).score ≤ 10 := by
  unfold score_constraints
  dsimp only
  repeat' split <;> norm_num [max_le_iff]

theorem fit_score_le_100 (rule : Rule) (s : StudentInput) :
    (compute_fit_score rule s).fit_score ≤ 100 := by
  unfold compute_fit_score
  dsimp only
  apply pyRound2_le_100
  have h1 := score_interest_le rule s
  have h2 := score_academic_le rule s
  have h3 := score_budget_le rule s
  have h4 := score_english_le rule s
  have h5 := score_constraints_le rule s
  linarith

/-- C2 counterexample: the negation of the claimed existence of an
over-100 fit score — no rule/profile pair makes `fit_score` exceed
100. -/
theorem C2_counterexample :
    ¬ ∃ (rule : Rule) (s : StudentInput), 100 < (compute_fit_score rule s).fit_score := by
  rintro ⟨rule, s, h⟩
  exact absurd h (not_lt.mpr (fit_score_le_100 rule s))

/-- C2 (amended): every sub-score is bounded by its nominal cap
(30/25/20/15/10), so the summed and rounded `fit_score` never exceeds
100. -/
theorem C2_fit_score_bounded (rule : Rule) (s : StudentInput) :
    (score_interest rule s).score ≤ 30 ∧
    (score_academic rule s).score ≤ 25 ∧
    (score_budget rule s).score ≤ 20 ∧
    (score_english rule s).score ≤ 15 ∧
    (score_constraints rule s).score ≤ 10 ∧
    (compute_fit_score rule s).fit_score ≤ 100 :=
  ⟨score_interest_le rule s, score_academic_le rule s, score_budget_le rule s,
   score_english_le rule s, score_constraints_le rule s, fit_score_le_100 rule s⟩

theorem C2_witness :
    (score_interest ruleSimple sSimple).score ≤ 30 ∧
    (score_academic ruleSimple sSimple).score ≤ 25 ∧
    (score_budget ruleSimple sSimple).score ≤ 20 ∧
    (score_english ruleSimple sSimple).score ≤ 15 ∧
    (score_constraints ruleSimple sSimple).score ≤ 10 ∧
    (compute_fit_score ruleSimple sSimple).fit_score ≤ 100 :=
  C2_fit_score_bounded ruleSimple sSimple

/-! ### C6: monotonicity of the academic sub-score in SPM credits -/

/-- C6 counterexample to the claim as stated over all stated
`min_spm_credits` values: with the negative stated minimum -2, raising
`spm_credits` from 0 to 1 strictly lowers the academic score
(0 drops to -25/4). -/
theorem C6_counterexample :
    (score_academic ruleNegMin
        { student_level := some "SPM", spm_credits := some 1 }).score <
      (score_academic ruleNegMin
        { student_level := some "SPM", spm_credits := some 0 }).score := by
  norm_num [score_academic, academicCreditScore, academicSubjectScore, academicSubjects,
    ruleNegMin, StudentInput.credits]

/-- C6 (amended): for an SPM-level rule whose stated `min_spm_credits`
is positive, the academic sub-score is monotone non-decreasing in the
profile's `spm_credits`, all else equal. -/
theorem C6_academic_monotone (rule : Rule) (s : StudentInput) (m c₁ c₂ : ℤ)
    (hlevel : rule.student_level = some "SPM")
    (hm : rule.min_spm_credits = some m) (hmpos : 0 < m) (hc : c₁ ≤ c₂) :
    (score_academic rule { s with spm_credits := some c₁ }).score ≤
      (score_academic rule { s with spm_credits := some c₂ }).score := by
  by_cases hS : s.student_level = some "SPM"
  · have hlev1 : ({ s with spm_credits := some c₁ } : StudentInput).student_level = some "SPM" := hS
    have hlev2 : ({ s with spm_credits := some c₂ } : StudentInput).student_level = some "SPM" := hS
    unfold score_academic
    rw [if_pos hlev1, if_pos hlev2]
    dsimp only
    have hsub : academicSubjectScore rule { s with spm_credits := some c₂ } =
        academicSubjectScore rule { s with spm_credits := some c₁ } := rfl
    have hacs : academicCreditScore rule { s with spm_credits := some c₁ } ≤
        academicCreditScore rule { s with spm_credits := some c₂ } := by
      unfold academicCreditScore
      rw [hm]
      dsimp only
      have hm0 : m ≠ 0 := hmpos.ne'
      rw [if_pos hm0, if_pos hm0]
      apply min_le_min le_rfl
      apply mul_le_mul_of_nonneg_right _ (by norm_num)
      apply min_le_min le_rfl
      have hmQ : (0 : ℚ) < (m : ℚ) := by exact_mod_cast hmpos
      have hcQ : ((c₁ : ℤ) : ℚ) ≤ ((c₂ : ℤ) : ℚ) := by exact_mod_cast hc
      exact div_le_div_of_nonneg_right hcQ hmQ.le
    rw [hsub]
    exact min_le_min (by linarith) le_rfl
  · have hlev1 : ¬ ({ s with spm_credits := some c₁ } : StudentInput).student_level = some "SPM" := hS
    have hlev2 : ¬ ({ s with spm_credits := some c₂ } : StudentInput).student_level = some "SPM" := hS
    unfold score_academic
    rw [if_neg hlev1, if_neg hlev2]
    exact le_of_eq rfl

theorem C6_witness :
    (score_academic { student_level := some "SPM", min_spm_credits := some 5 }
        { sSimple with spm_credits := some 4 }).score ≤
      (score_academic { student_level := some "SPM", min_spm_credits := some 5 }
        { sSimple with spm_credits := some 6 }).score :=
  C6_academic_monotone _ sSimple 5 4 6 rfl rfl (by norm_num) (by norm_num)

/-! ### C8: readiness score bounds and budget tiers -/

theorem readinessEnglish_ge (s : StudentInput) : 8 ≤ readinessEnglish s := by
  unfold readinessEnglish
  repeat' split <;> norm_num [min_def]

theorem readinessBudget_ge (s : StudentInput) : 6 ≤ readinessBudget s := by
  unfold readinessBudget
  repeat' split <;> norm_num

theorem readinessChecklist_nonneg (s : StudentInput) : 0 ≤ readinessChecklist s := by
  unfold readinessChecklist
  apply le_min (by norm_num)
  positivity

/-- C8 counterexample to the claim over all profiles: a Diploma profile
with CGPA -4 yields `readiness_score = -24`, outside `[0, 100]`. -/
theorem C8_counterexample : (compute_readiness_score sNegCgpa).readiness_score < 0 := by
  have h1 : readinessAcademic sNegCgpa = -40 := by
    unfold readinessAcademic
    rw [if_neg (by decide : ¬ sNegCgpa.student_level = some "SPM"),
      if_pos (by decide : sNegCgpa.student_level = some "Diploma")]
    norm_num [sNegCgpa, StudentInput.cgpaVal, min_def]
  have h2 : readinessEnglish sNegCgpa = 10 := by
    norm_num [readinessEnglish, sNegCgpa, StudentInput.english, dictGetD, ENGLISH_LEVELS]
  have h3 : readinessBudget sNegCgpa = 6 := by
    norm_num [readinessBudget, sNegCgpa, StudentInput.budget]
  have h4 : readinessChecklist sNegCgpa = 0 := by
    norm_num [readinessChecklist, sNegCgpa, min_def]
  have h5 : (compute_readiness_score sNegCgpa).readiness_score =
      pyRoundInt (min 100 (readinessAcademic sNegCgpa + readinessEnglish sNegCgpa +
        readinessBudget sNegCgpa + readinessChecklist sNegCgpa)) := rfl
  rw [h5, h1, h2, h3, h4]
  have h6 : min (100 : ℚ) (-40 + 10 + 6 + 0) = -24 := by norm_num [min_def]
  rw [h6]
  have h7 : pyRoundInt (-24) = -24 := by
    unfold pyRoundInt
    norm_num
  rw [h7]
  norm_num

/-- C8 (amended): for profiles whose SPM-credit and CGPA entries are
nonnegative (as the collection wizard guarantees), the readiness score is
an integer in `[0, 100]`, equal to the half-to-even-rounded
clamped-to-100 sum of the four dimension scores, and the budget dimension
takes exactly the flat tiers 20 / 12 / 6. -/
theorem C8_readiness_bounds (s : StudentInput)
    (hcred : 0 ≤ s.spm_credits.getD 0) (hcgpa : 0 ≤ s.cgpa.getD 0) :
    0 ≤ (compute_readiness_score s).readiness_score ∧
    (compute_readiness_score s).readiness_score ≤ 100 ∧
    (compute_readiness_score s).readiness_score =
      pyRoundInt (min 100 (readinessAcademic s + readinessEnglish s +
        readinessBudget s + readinessChecklist s)) ∧
    (1500 ≤ s.budget → readinessBudget s = 20) ∧
    (800 ≤ s.budget → s.budget < 1500 → readinessBudget s = 12) ∧
    (s.budget < 800 → readinessBudget s = 6) := by
  have hacad : 0 ≤ readinessAcademic s := by
    unfold readinessAcademic
    split
    · apply le_min (by norm_num)
      have : (0 : ℚ) ≤ (s.credits : ℚ) := by exact_mod_cast hcred
      positivity
    · split
      · apply le_min (by norm_num)
        have : (0 : ℚ) ≤ s.cgpaVal := hcgpa
        positivity
      · exact le_refl 0
  have heng := readinessEnglish_ge s
  have hbud := readinessBudget_ge s
  have hck := readinessChecklist_nonneg s
  refine ⟨?_, ?_, rfl, ?_, ?_, ?_⟩
  · apply le_pyRoundInt
    have : (0 : ℚ) ≤ min 100 (readinessAcademic s + readinessEnglish s +
        readinessBudget s + readinessChecklist s) := le_min (by norm_num) (by linarith)
    exact_mod_cast this
  · apply pyRoundInt_le
    have : min 100 (readinessAcademic s + readinessEnglish s +
        readinessBudget s + readinessChecklist s) ≤ 100 := min_le_left _ _
    exact_mod_cast this
  · intro h1
    unfold readinessBudget
    rw [if_pos h1]
  · intro h1 h2
    unfold readinessBudget
    rw [if_neg (not_le.mpr h2), if_pos h1]
  · intro h1
    unfold readinessBudget
    rw [if_neg (not_le.mpr (lt_of_lt_of_le h1 (by norm_num))),
      if_neg (not_le.mpr h1)]

theorem C8_witness :
    0 ≤ (compute_readiness_score sSimple).readiness_score ∧
    (compute_readiness_score sSimple).readiness_score ≤ 100 ∧
    (compute_readiness_score sSimple).readiness_score =
      pyRoundInt (min 100 (readinessAcademic sSimple + readinessEnglish sSimple +
        readinessBudget sSimple + readinessChecklist sSimple)) ∧
    (1500 ≤ sSimple.budget → readinessBudget sSimple = 20) ∧
    (800 ≤ sSimple.budget → sSimple.budget < 1500 → readinessBudget sSimple = 12) ∧
    (sSimple.budget < 800 → readinessBudget sSimple = 6) :=
  C8_readiness_bounds sSimple (by decide) (by norm_num [sSimple])

/-! ### C1: recommendation list size -/

/-- C1 counterexample to the claimed size `max(3, min(top_n,
eligible_count))`: with exactly one passing rule and `top_n = 5` the
Python slice returns 1 recommendation, while the claimed formula gives
3. -/
theorem C1_counterexample :
    (evaluate_rules [ruleSimple] sSimple 5 [] {}).recommendations.length = 1 ∧
    max 3 (min (5 : ℤ) 1) = 3 := by
  constructor
  · rfl
  · decide

/-- C1 (amended): the recommendations list has length
`min(eligible_count, max(3, min(top_n, eligible_count)))` — the slice can
never return more rows than passed the gate; in particular it has at
least 3 entries whenever at least 3 rules passed, even for
`top_n < 3`. -/
theorem C1_recommendation_count (rules : List Rule) (s : StudentInput) (top_n : ℤ)
    (progs : List UniversityProgram) (now : PyDateTime)
    (h : 0 < (rules.filter (fun r => (evaluate_rule_gate r s).passed)).length) :
    ((evaluate_rules rules s top_n progs now).recommendations).length =
      (min ((rules.filter (fun r => (evaluate_rule_gate r s).passed)).length : ℤ)
        (max 3 (min top_n
          ((rules.filter (fun r => (evaluate_rule_gate r s).passed)).length : ℤ)))).toNat ∧
    (3 ≤ (rules.filter (fun r => (evaluate_rule_gate r s).passed)).length →
      3 ≤ ((evaluate_rules rules s top_n progs now).recommendations).length) := by
  have hlen1 : (buildEligible rules s).length =
      (rules.filter (fun r => (evaluate_rule_gate r s).passed)).length :=
    buildEligible_length rules s
  have hlen2 : (sortGt recGt (buildEligible rules s)).length =
      (rules.filter (fun r => (evaluate_rule_gate r s).passed)).length := by
    rw [sortGt_length, hlen1]
  have hne : ¬ (sortGt recGt (buildEligible rules s) = []) := by
    intro he
    rw [he] at hlen2
    simp at hlen2
    omega
  have hmain : ((evaluate_rules rules s top_n progs now).recommendations).length =
      min ((max 3 (min top_n
        ((rules.filter (fun r => (evaluate_rule_gate r s).passed)).length : ℤ))).toNat)
        ((rules.filter (fun r => (evaluate_rule_gate r s).passed)).length) := by
    unfold evaluate_rules
    rw [if_neg hne]
    dsimp only
    split
    · simp [build_university_matches, List.length_take, hlen2]
    · simp [List.length_take, hlen2]
  refine ⟨?_, ?_⟩
  · rw [hmain]
    omega
  · intro h3
    rw [hmain]
    omega

theorem C1_witness :
    ((evaluate_rules [ruleSimple] sSimple 0 [] {}).recommendations).length =
      (min (([ruleSimple].filter
          (fun r => (evaluate_rule_gate r sSimple).passed)).length : ℤ)
        (max 3 (min 0 (([ruleSimple].filter
          (fun r => (evaluate_rule_gate r sSimple).passed)).length : ℤ)))).toNat ∧
    (3 ≤ ([ruleSimple].filter (fun r => (evaluate_rule_gate r sSimple).passed)).length →
      3 ≤ ((evaluate_rules [ruleSimple] sSimple 0 [] {}).recommendations).length) :=
  C1_recommendation_count [ruleSimple] sSimple 0 [] {} (by decide)

/-! ### C7: determinism (the only time dependence is the month) -/

/-- C7: two evaluations over the same inputs and the same current
calendar month return identical results — the current datetime enters
only through its `month` field, read by the intake-window scorer. -/
theorem C7_determinism (rules : List Rule) (s : StudentInput) (top_n : ℤ)
    (progs : List UniversityProgram) (now1 now2 : PyDateTime)
    (h : now1.month = now2.month) :
    evaluate_rules rules s top_n progs now1 = evaluate_rules rules s top_n progs now2 := by
  have h1 : ∀ terms, best_intake_delta terms now1 = best_intake_delta terms now2 := by
    intro terms
    unfold best_intake_delta
    rw [h]
  have h2 : ∀ w terms, intake_window_fit w terms now1 = intake_window_fit w terms now2 := by
    intro w terms
    unfold intake_window_fit
    rw [h1]
  have h3 : ∀ p tags, score_university_option p s tags now1 =
      score_university_option p s tags now2 := by
    intro p tags
    unfold score_university_option
    simp only [h2]
  have h4 : ∀ tags, scoredOptions s progs tags now1 = scoredOptions s progs tags now2 := by
    intro tags
    unfold scoredOptions
    simp only [h3]
  have h5 : ∀ recs, build_university_matches recs s progs now1 =
      build_university_matches recs s progs now2 := by
    intro recs
    unfold build_university_matches uniAggregate
    simp only [h4]
  unfold evaluate_rules
  simp only [h5]

theorem C7_witness :
    evaluate_rules [ruleSimple] sSimple 5 [progTuition] { month := 3, day := 1 } =
      evaluate_rules [ruleSimple] sSimple 5 [progTuition] { month := 3, day := 15 } :=
  C7_determinism [ruleSimple] sSimple 5 [progTuition] _ _ rfl

/-! ### C3: the tuition hard filter -/

theorem pyTrunc_mul_four_fifths_lt {t : ℤ} (ht : 0 < t) :
    pyTrunc ((t : ℚ) * (4/5)) < t := by
  have h0 : (0 : ℚ) ≤ (t : ℚ) * (4/5) := by
    have : (0 : ℚ) ≤ (t : ℚ) := by exact_mod_cast ht.le
    positivity
  unfold pyTrunc
  rw [if_pos h0]
  have h1 : ((⌊(t : ℚ) * (4/5)⌋ : ℤ) : ℚ) ≤ (t : ℚ) * (4/5) := Int.floor_le _
  have h2 : (t : ℚ) * (4/5) < (t : ℚ) := by
    have : (0 : ℚ) < (t : ℚ) := by exact_mod_cast ht
    linarith
  have h3 : ((⌊(t : ℚ) * (4/5)⌋ : ℤ) : ℚ) < (t : ℚ) := lt_of_le_of_lt h1 h2
  exact_mod_cast h3

/-- For a program that passes every earlier hard filter and declares a
positive yearly tuition minimum `t`, the scorer excludes the program
exactly when the annualized budget is below `int(t * 0.8)`. -/
theorem tuition_filter_iff (program : UniversityProgram) (s : StudentInput)
    (pathway_tags : Finset String) (now : PyDateTime) (t : ℤ)
    (hactive : program.active = true)
    (hlev1 : ¬ (s.student_level = some "SPM" ∧
      ¬ (program.program_level.getD "" = "Foundation" ∨
         program.program_level.getD "" = "Diploma")))
    (hlev2 : ¬ (s.student_level = some "Diploma" ∧
      ¬ (program.program_level.getD "" = "Bachelor" ∨
         program.program_level.getD "" = "Top-up")))
    (hdest1 : ¬ (destinationPref s = "malaysia_only" ∧
      strLower (programCountry program) ≠ "malaysia"))
    (hdest2 : ¬ (destinationPref s = "open_overseas" ∧ selectedDestinations s ≠ ∅ ∧
      strLower (programCountry program) ∉ selectedDestinations s ∧
      strLower (programCountry program) ≠ "malaysia"))
    (hacad1 : ¬ (s.student_level = some "SPM" ∧
      program.admission_requirements_json.min_spm_credits.getD 0 ≠ 0 ∧
      s.credits < program.admission_requirements_json.min_spm_credits.getD 0))
    (hacad2 : ¬ (s.student_level = some "Diploma" ∧
      program.admission_requirements_json.min_cgpa.getD 0 ≠ 0 ∧
      s.cgpaVal < program.admission_requirements_json.min_cgpa.getD 0))
    (heng : ¬ (¬ english_meets_requirement s.english (programRequiredEnglish program) = true ∧
      dictGetD ENGLISH_LEVELS s.english 0 + 1 <
        dictGetD ENGLISH_LEVELS (programRequiredEnglish program) 1))
    (htmin : program.tuition_yearly_min_myr = some t) (ht : 0 < t) :
    score_university_option program s pathway_tags now = none ↔
      s.budget * 12 < pyTrunc ((t : ℚ) * (4/5)) := by
  unfold score_university_option
  rw [if_neg (by simp [hactive] : ¬ ¬ program.active = true)]
  dsimp only
  rw [if_neg hlev1, if_neg hlev2]
  try dsimp only
  rw [if_neg hdest1, if_neg hdest2]
  try dsimp only
  rw [if_neg hacad1, if_neg hacad2]
  try dsimp only
  rw [if_neg heng]
  try dsimp only
  rw [htmin]
  try dsimp only
  have ht' : t ≠ 0 := ht.ne'
  by_cases hb : s.budget * 12 < pyTrunc ((t : ℚ) * (4/5))
  · have hbt : s.budget * 12 < t := lt_trans hb (pyTrunc_mul_four_fifths_lt ht)
    rw [if_pos ⟨by simp [ht'], hbt, hb⟩]
    simp [hb]
  · rw [if_neg (by
      rintro ⟨-, -, hcon⟩
      exact hb hcon)]
    simp [hb]

/-- C3 counterexample to the claimed exclusion condition "tuition
minimum exceeds 80% of annualized budget": with tuition RM 10,000/year
against an annualized budget of RM 12,000, the tuition (10,000) does
exceed 80% of the budget (9,600), yet the scorer keeps the program. -/
theorem C3_counterexample :
    (4/5 : ℚ) * ((sBudget1000.budget * 12 : ℤ) : ℚ) <
      ((progTuition.tuition_yearly_min_myr.getD 0 : ℤ) : ℚ) ∧
    score_university_option progTuition sBudget1000 ∅ {} ≠ none := by
  constructor
  · norm_num [sBudget1000, StudentInput.budget, progTuition]
  · have h := tuition_filter_iff progTuition sBudget1000 ∅ {} 10000
      rfl (by decide) (by decide) (by decide) (by decide) (by decide)
      (by decide) (by decide) rfl (by norm_num)
    intro hnone
    have hlt := h.mp hnone
    have htr : pyTrunc (((10000 : ℤ) : ℚ) * (4/5)) = 8000 := by
      unfold pyTrunc
      norm_num
    rw [htr] at hlt
    have : sBudget1000.budget = 1000 := rfl
    omega

/-- C3 (amended): when a positive yearly tuition minimum is declared and
the other hard filters pass, the program is excluded exactly when the
annualized budget (monthly × 12) is below `int(0.8 × tuition_min)`
— i.e. below 80% of the tuition, not the other way around; at or above
that threshold the program is scored. -/
theorem C3_tuition_threshold (program : UniversityProgram) (s : StudentInput)
    (pathway_tags : Finset String) (now : PyDateTime) (t : ℤ)
    (hactive : program.active = true)
    (hlev1 : ¬ (s.student_level = some "SPM" ∧
      ¬ (program.program_level.getD "" = "Foundation" ∨
         program.program_level.getD "" = "Diploma")))
    (hlev2 : ¬ (s.student_level = some "Diploma" ∧
      ¬ (program.program_level.getD "" = "Bachelor" ∨
         program.program_level.getD "" = "Top-up")))
    (hdest1 : ¬ (destinationPref s = "malaysia_only" ∧
      strLower (programCountry program) ≠ "malaysia"))
    (hdest2 : ¬ (destinationPref s = "open_overseas" ∧ selectedDestinations s ≠ ∅ ∧
      strLower (programCountry program) ∉ selectedDestinations s ∧
      strLower (programCountry program) ≠ "malaysia"))
    (hacad1 : ¬ (s.student_level = some "SPM" ∧
      program.admission_requirements_json.min_spm_credits.getD 0 ≠ 0 ∧
      s.credits < program.admission_requirements_json.min_spm_credits.getD 0))
    (hacad2 : ¬ (s.student_level = some "Diploma" ∧
      program.admission_requirements_json.min_cgpa.getD 0 ≠ 0 ∧
      s.cgpaVal < program.admission_requirements_json.min_cgpa.getD 0))
    (heng : ¬ (¬ english_meets_requirement s.english (programRequiredEnglish program) = true ∧
      dictGetD ENGLISH_LEVELS s.english 0 + 1 <
        dictGetD ENGLISH_LEVELS (programRequiredEnglish program) 1))
    (htmin : program.tuition_yearly_min_myr = some t) (ht : 0 < t) :
    score_university_option program s pathway_tags now = none ↔
      s.budget * 12 < pyTrunc ((t : ℚ) * (4/5)) :=
  tuition_filter_iff program s pathway_tags now t hactive hlev1 hlev2 hdest1 hdest2
    hacad1 hacad2 heng htmin ht

theorem C3_witness :
    score_university_option progTuition sBudget500 ∅ {} = none ↔
      sBudget500.budget * 12 < pyTrunc (((10000 : ℤ) : ℚ) * (4/5)) :=
  C3_tuition_threshold progTuition sBudget500 ∅ {} 10000
    rfl (by decide) (by decide) (by decide) (by decide) (by decide)
    (by decide) (by decide) rfl (by norm_num)

/-! ### C9: the deduplicated global university-option list -/

theorem insGt_sorted_opt (x : UniOption) (l : List UniOption)
    (h : l.Sorted (fun a b => b.match_score ≤ a.match_score)) :
    (insGt optGt x l).Sorted (fun a b => b.match_score ≤ a.match_score) := by
  induction l with
  | nil => simp [insGt]
  | cons y ys ih =>
    rw [List.sorted_cons] at h
    simp only [insGt]
    split
    · rename_i hgt
      have hxy : y.match_score < x.match_score := by
        simpa [optGt] using hgt
      rw [List.sorted_cons]
      refine ⟨?_, List.sorted_cons.mpr h⟩
      intro b hb
      rcases List.mem_cons.mp hb with rfl | hb'
      · exact hxy.le
      · exact (h.1 b hb').trans hxy.le
    · rename_i hgt
      have hxy : x.match_score ≤ y.match_score := by
        have := hgt
        simp only [optGt] at this
        simpa using le_of_not_lt (by simpa using this)
      rw [List.sorted_cons]
      refine ⟨?_, ih h.2⟩
      intro b hb
      have hb' : b ∈ x :: ys := ((insGt_perm optGt x ys).mem_iff).mp hb
      rcases List.mem_cons.mp hb' with rfl | hb''
      · exact hxy
      · exact h.1 b hb''

theorem sortGt_sorted_opt (l : List UniOption) :
    (sortGt optGt l).Sorted (fun a b => b.match_score ≤ a.match_score) := by
  suffices h : ∀ (l acc : List UniOption),
      acc.Sorted (fun a b => b.match_score ≤ a.match_score) →
      (l.foldl (fun acc x => insGt optGt x acc) acc).Sorted
        (fun a b => b.match_score ≤ a.match_score) by
    exact h l [] (List.sorted_nil)
  intro l
  induction l with
  | nil => intro acc hacc; exact hacc
  | cons x xs ih =>
    intro acc hacc
    exact ih (insGt optGt x acc) (insGt_sorted_opt x acc hacc)

theorem mem_upsertPool {key : String} {item : UniOption} :
    ∀ {acc : List (String × UniOption)} {kv : String × UniOption},
      kv ∈ upsertPool key item acc → kv = (key, item) ∨ kv ∈ acc := by
  intro acc
  induction acc with
  | nil =>
    intro kv h
    simp only [upsertPool, List.mem_singleton] at h
    exact Or.inl h
  | cons hd tl ih =>
    obtain ⟨k, v⟩ := hd
    intro kv h
    simp only [upsertPool] at h
    split at h
    · rename_i hk
      rcases List.mem_cons.mp h with rfl | hmem
      · split
        · exact Or.inl (by rw [hk])
        · exact Or.inr (List.mem_cons_self _ _)
      · exact Or.inr (List.mem_cons_of_mem _ hmem)
    · rcases List.mem_cons.mp h with rfl | hmem
      · exact Or.inr (List.mem_cons_self _ _)
      · rcases ih hmem with h' | h'
        · exact Or.inl h'
        · exact Or.inr (List.mem_cons_of_mem _ h')

theorem upsertPool_keys (key : String) (item : UniOption) :
    ∀ acc : List (String × UniOption),
      (upsertPool key item acc).map Prod.fst =
        if key ∈ acc.map Prod.fst then acc.map Prod.fst
        else acc.map Prod.fst ++ [key] := by
  intro acc
  induction acc with
  | nil => simp [upsertPool]
  | cons hd tl ih =>
    obtain ⟨k, v⟩ := hd
    simp only [upsertPool]
    by_cases hk : k = key
    · rw [if_pos hk]
      simp [hk]
    · have hk' : ¬ (key = k) := fun h => hk h.symm
      rw [if_neg hk]
      simp only [List.map_cons]
      rw [ih]
      by_cases hmem : key ∈ tl.map Prod.fst
      · rw [if_pos hmem, if_pos (by simp [hmem])]
      · rw [if_neg hmem, if_neg (by simp [hmem, hk'])]
        simp

theorem nodup_keys_upsertPool {key : String} {item : UniOption}
    {acc : List (String × UniOption)} (hnd : (acc.map Prod.fst).Nodup) :
    ((upsertPool key item acc).map Prod.fst).Nodup := by
  rw [upsertPool_keys]
  split
  · exact hnd
  · rename_i hmem
    rw [List.nodup_append]
    refine ⟨hnd, List.nodup_singleton _, ?_⟩
    intro a ha hb
    rw [List.mem_singleton] at hb
    subst hb
    exact hmem ha

theorem mem_keys_upsertPool {key k : String} {item : UniOption}
    {acc : List (String × UniOption)} (h : k ∈ acc.map Prod.fst) :
    k ∈ (upsertPool key item acc).map Prod.fst := by
  rw [upsertPool_keys]
  split
  · exact h
  · exact List.mem_append_left _ h

theorem key_mem_keys_upsertPool {key : String} {item : UniOption}
    {acc : List (String × UniOption)} :
    key ∈ (upsertPool key item acc).map Prod.fst := by
  rw [upsertPool_keys]
  split
  · rename_i hmem
    exact hmem
  · exact List.mem_append_right _ (List.mem_singleton_self _)

theorem mem_upsertPool_cases {key : String} {item : UniOption} :
    ∀ {acc : List (String × UniOption)} {kv : String × UniOption},
      (acc.map Prod.fst).Nodup → kv ∈ upsertPool key item acc →
      (kv ∈ acc ∧ kv.1 ≠ key) ∨
      (kv ∈ acc ∧ kv.1 = key ∧ item.match_score ≤ kv.2.match_score) ∨
      (kv = (key, item) ∧ ∀ v, (key, v) ∈ acc → v.match_score ≤ item.match_score) := by
  intro acc
  induction acc with
  | nil =>
    intro kv _ h
    simp only [upsertPool, List.mem_singleton] at h
    exact Or.inr (Or.inr ⟨h, by intro v hv; simp at hv⟩)
  | cons hd tl ih =>
    obtain ⟨k, v⟩ := hd
    intro kv hnd h
    simp only [List.map_cons, List.nodup_cons] at hnd
    obtain ⟨hknot, hndtl⟩ := hnd
    simp only [upsertPool] at h
    split at h
    · rename_i hk
      subst hk
      rcases List.mem_cons.mp h with rfl | hmem
      · split
        · rename_i hgt
          refine Or.inr (Or.inr ⟨rfl, ?_⟩)
          intro w hw
          rcases List.mem_cons.mp hw with heq | hw'
          · have : w = v := congrArg Prod.snd heq
            subst this
            exact (lt_of_not_le (fun hle => by simp [optGt] at hgt; linarith)).le
          · exact absurd (List.mem_map_of_mem Prod.fst hw') (by simpa using hknot)
        · rename_i hgt
          refine Or.inr (Or.inl ⟨List.mem_cons_self _ _, rfl, ?_⟩)
          simpa using le_of_not_lt (by simpa using hgt)
      · have : kv.1 ∈ tl.map Prod.fst := List.mem_map_of_mem Prod.fst hmem
        refine Or.inl ⟨List.mem_cons_of_mem _ hmem, ?_⟩
        intro hkv
        rw [hkv] at this
        exact hknot this
    · rename_i hk
      rcases List.mem_cons.mp h with rfl | hmem
      · exact Or.inl ⟨List.mem_cons_self _ _, hk⟩
      · rcases ih hndtl hmem with ⟨h1, h2⟩ | ⟨h1, h2, h3⟩ | ⟨h1, h2⟩
        · exact Or.inl ⟨List.mem_cons_of_mem _ h1, h2⟩
        · exact Or.inr (Or.inl ⟨List.mem_cons_of_mem _ h1, h2, h3⟩)
        · refine Or.inr (Or.inr ⟨h1, ?_⟩)
          intro w hw
          rcases List.mem_cons.mp hw with heq | hw'
          · exact absurd (congrArg Prod.fst heq).symm hk
          · exact h2 w hw'

theorem pool_foldl_spec :
    ∀ (rest processed : List UniOption) (acc : List (String × UniOption)),
      (acc.map Prod.fst).Nodup →
      (∀ kv ∈ acc, kv.1 = uniKey kv.2) →
      (∀ kv ∈ acc, ∀ a ∈ processed, uniKey a = kv.1 → a.match_score ≤ kv.2.match_score) →
      (∀ a ∈ processed, uniKey a ∈ acc.map Prod.fst) →
      (((rest.foldl (fun acc item => upsertPool (uniKey item) item acc) acc).map
          Prod.fst).Nodup ∧
       (∀ kv ∈ rest.foldl (fun acc item => upsertPool (uniKey item) item acc) acc,
          kv.1 = uniKey kv.2) ∧
       (∀ kv ∈ rest.foldl (fun acc item => upsertPool (uniKey item) item acc) acc,
          ∀ a ∈ processed ++ rest, uniKey a = kv.1 → a.match_score ≤ kv.2.match_score)) := by
  intro rest
  induction rest with
  | nil =>
    intro processed acc h1 h2 h3 _
    refine ⟨h1, h2, ?_⟩
    intro kv hkv a ha
    rw [List.append_nil] at ha
    exact h3 kv hkv a ha
  | cons x xs ih =>
    intro processed acc h1 h2 h3 h4
    have h1' : ((upsertPool (uniKey x) x acc).map Prod.fst).Nodup :=
      nodup_keys_upsertPool h1
    have h2' : ∀ kv ∈ upsertPool (uniKey x) x acc, kv.1 = uniKey kv.2 := by
      intro kv hkv
      rcases mem_upsertPool hkv with rfl | hin
      · rfl
      · exact h2 kv hin
    have h3' : ∀ kv ∈ upsertPool (uniKey x) x acc, ∀ a ∈ processed ++ [x],
        uniKey a = kv.1 → a.match_score ≤ kv.2.match_score := by
      intro kv hkv a ha hk
      rcases mem_upsertPool_cases h1 hkv with ⟨hin, hne⟩ | ⟨hin, hkey, hle⟩ | ⟨rfl, hbd⟩
      · rcases List.mem_append.mp ha with ha' | ha'
        · exact h3 kv hin a ha' hk
        · rw [List.mem_singleton] at ha'
          subst ha'
          exact absurd hk.symm hne
      · rcases List.mem_append.mp ha with ha' | ha'
        · exact h3 kv hin a ha' hk
        · rw [List.mem_singleton] at ha'
          subst ha'
          exact hle
      · rcases List.mem_append.mp ha with ha' | ha'
        · have hkm : uniKey a ∈ acc.map Prod.fst := h4 a ha'
          rcases List.mem_map.mp hkm with ⟨kv', hkv', hfst⟩
          have hkv'' : (uniKey a, kv'.2) ∈ acc := by
            have : kv' = (kv'.1, kv'.2) := rfl
            rw [this, hfst] at hkv'
            exact hkv'
          have hb1 : a.match_score ≤ kv'.2.match_score := h3 kv' hkv' a ha' hfst.symm
          have hb2 : kv'.2.match_score ≤ x.match_score := by
            apply hbd
            have : uniKey a = uniKey x := by
              simpa using hk
            rw [← this]
            exact hkv''
          exact le_trans hb1 hb2
        · rw [List.mem_singleton] at ha'
          subst ha'
          exact le_refl _
    have h4' : ∀ a ∈ processed ++ [x],
        uniKey a ∈ (upsertPool (uniKey x) x acc).map Prod.fst := by
      intro a ha
      rcases List.mem_append.mp ha with ha' | ha'
      · exact mem_keys_upsertPool (h4 a ha')
      · rw [List.mem_singleton] at ha'
        subst ha'
        exact key_mem_keys_upsertPool
    have := ih (processed ++ [x]) (upsertPool (uniKey x) x acc) h1' h2' h3' h4'
    refine ⟨this.1, this.2.1, ?_⟩
    intro kv hkv a ha hk
    apply this.2.2 kv hkv a _ hk
    simpa using ha

theorem dedupPool_spec (items : List UniOption) :
    ((dedupPool items).map Prod.fst).Nodup ∧
    (∀ kv ∈ dedupPool items, kv.1 = uniKey kv.2) ∧
    (∀ kv ∈ dedupPool items, ∀ a ∈ items,
      uniKey a = kv.1 → a.match_score ≤ kv.2.match_score) := by
  have h := pool_foldl_spec items [] []
    (by simp) (by simp) (by simp) (by simp)
  refine ⟨h.1, h.2.1, ?_⟩
  intro kv hkv a ha hk
  exact h.2.2 kv hkv a (by simpa using ha) hk

/-- C9: the global `top_university_options` list has at most 8 entries,
is sorted by descending `match_score`, never repeats a
(university, program) pair, and each surviving entry carries the maximum
pooled score for its pair. -/
theorem C9_top_university_options (recs : List Recommendation) (s : StudentInput)
    (progs : List UniversityProgram) (now : PyDateTime) :
    ((build_university_matches recs s progs now).2).length ≤ 8 ∧
    ((build_university_matches recs s progs now).2).Sorted
      (fun a b => b.match_score ≤ a.match_score) ∧
    ((build_university_matches recs s progs now).2).Pairwise
      (fun a b => ¬ (a.university_name = b.university_name ∧
        a.program_name = b.program_name)) ∧
    (∀ o ∈ (build_university_matches recs s progs now).2,
      ∀ a ∈ uniAggregate recs s progs now,
        a.university_name = o.university_name → a.program_name = o.program_name →
          a.match_score ≤ o.match_score) := by
  obtain ⟨hnd, hcons, hmax⟩ := dedupPool_spec (uniAggregate recs s progs now)
  have hout : (build_university_matches recs s progs now).2 =
      (sortGt optGt ((dedupPool (uniAggregate recs s progs now)).map
        (fun kv => kv.2))).take 8 := rfl
  refine ⟨?_, ?_, ?_, ?_⟩
  · rw [hout]
    exact List.length_take_le 8 _
  · rw [hout]
    exact List.Pairwise.sublist (List.take_sublist 8 _) (sortGt_sorted_opt _)
  · rw [hout]
    apply List.Pairwise.sublist (List.take_sublist 8 _)
    have hpw0 : (dedupPool (uniAggregate recs s progs now)).Pairwise
        (fun kv kv' => kv.1 ≠ kv'.1) := List.pairwise_map.mp hnd
    have hpw1 : (dedupPool (uniAggregate recs s progs now)).Pairwise
        (fun kv kv' => ¬ (kv.2.university_name = kv'.2.university_name ∧
          kv.2.program_name = kv'.2.program_name)) := by
      refine hpw0.imp_of_mem ?_
      intro kv kv' hkv hkv' hne hand
      apply hne
      rw [hcons kv hkv, hcons kv' hkv']
      unfold uniKey
      rw [hand.1, hand.2]
    have hpw2 : ((dedupPool (uniAggregate recs s progs now)).map
        (fun kv => kv.2)).Pairwise
        (fun a b => ¬ (a.university_name = b.university_name ∧
          a.program_name = b.program_name)) :=
      List.pairwise_map.mpr hpw1
    exact ((sortGt_perm optGt _).pairwise_iff
      (by intro a b h hand; exact h ⟨hand.1.symm, hand.2.symm⟩)).mpr hpw2
  · intro o ho a ha hun hpn
    rw [hout] at ho
    have ho1 : o ∈ sortGt optGt ((dedupPool (uniAggregate recs s progs now)).map
        (fun kv => kv.2)) := (List.take_sublist 8 _).mem ho
    have ho2 : o ∈ (dedupPool (uniAggregate recs s progs now)).map (fun kv => kv.2) :=
      (sortGt_perm optGt _).mem_iff.mp ho1
    rcases List.mem_map.mp ho2 with ⟨kv, hkv, hsnd⟩
    have hkeq : uniKey a = kv.1 := by
      rw [hcons kv hkv, hsnd]
      unfold uniKey
      rw [hun, hpn]
    have := hmax kv hkv a ha hkeq
    rw [hsnd] at this
    exact this

theorem C9_witness :
    ((build_university_matches [] sSimple [] {}).2).length ≤ 8 :=
  (C9_top_university_options [] sSimple [] {}).1

end TemanEdu
